import Mathlib

/-!
Verification of the sv2-uniffi wrapper library: message translation,
encrypted transport codec, channel servers and the extranonce-prefix
factory.  Rust structures are embedded shallowly: byte vectors become
`List Nat`, machine integers become `Nat` (the wrapper performs no
arithmetic on them except the little-endian `u32` packing, which is
modelled explicitly), `f32` fields are carried opaquely as their raw bit
pattern (`Nat`), and fallible conversions return `Except`.
Components that live in external crates (`codec_sv2`, `channels_sv2`,
`mining_sv2`) are modelled from the specification; each such definition
carries a doc comment starting with `Modelled from the spec:`.
-/

set_option maxHeartbeats 1000000
set_option linter.unusedVariables false

namespace Sv2

/-- Little-endian packing of a `u32` into four bytes, as performed by the
conversion of `request_id` into the inner 4-byte representation. -/
def toLe4 (x : Nat) : List Nat :=
  [x % 256, x / 256 % 256, x / 256 ^ 2 % 256, x / 256 ^ 3 % 256]

/-- Inverse of `toLe4`: `u32::from_le_bytes` on a 4-byte list. -/
def fromLe4 : List Nat → Nat
  | [a, b, c, d] => a + 256 * b + 256 ^ 2 * c + 256 ^ 3 * d
  | _ => 0

theorem fromLe4_toLe4 (x : Nat) (h : x < 2 ^ 32) : fromLe4 (toLe4 x) = x := by
  simp only [toLe4, fromLe4]
  have h256 : (256 : Nat) ^ 2 = 65536 := by norm_num
  have h2563 : (256 : Nat) ^ 3 = 16777216 := by norm_num
  have h32 : (2 : Nat) ^ 32 = 4294967296 := by norm_num
  rw [h256, h2563]
  rw [h32] at h
  omega

/-- Errors of the message translation layer (`messages/error.rs`; the
`FailedToSerializeByteArray` variant is the one referenced throughout
`messages/mod.rs` for byte-vector conversions). -/
inductive Sv2MessageError
  | failedToConvertProtocol
  | failedToSerializeString
  | failedToSerializeByteArray
deriving DecidableEq

/-! External (UniFFI-facing) message records, from `messages/common.rs`,
`messages/mining.rs`, `messages/template_distribution.rs` and
`messages/job_declaration.rs`.  Field names are the source names in
camel case. -/

structure SetupConnection where
  protocol : Nat
  minVersion : Nat
  maxVersion : Nat
  flags : Nat
  endpointHost : String
  endpointPort : Nat
  vendor : String
  hardwareVersion : String
  firmware : String
  deviceId : String
deriving DecidableEq

structure SetupConnectionSuccess where
  usedVersion : Nat
  flags : Nat
deriving DecidableEq

structure SetupConnectionError where
  flags : Nat
  errorCode : String
deriving DecidableEq

structure ChannelEndpointChanged where
  channelId : Nat
deriving DecidableEq

structure Reconnect where
  newHost : String
  newPort : Nat
deriving DecidableEq

structure OpenStandardMiningChannel where
  requestId : Nat
  userIdentity : String
  nominalHashRate : Nat
  maxTarget : List Nat
deriving DecidableEq

structure OpenStandardMiningChannelSuccess where
  requestId : Nat
  channelId : Nat
  target : List Nat
  extranoncePrefix : List Nat
  groupChannelId : Nat
deriving DecidableEq

structure OpenExtendedMiningChannel where
  requestId : Nat
  userIdentity : String
  nominalHashRate : Nat
  maxTarget : List Nat
  minExtranonceSize : Nat
deriving DecidableEq

structure OpenExtendedMiningChannelSuccess where
  requestId : Nat
  channelId : Nat
  target : List Nat
  extranonceSize : Nat
  extranoncePrefix : List Nat
deriving DecidableEq

structure OpenMiningChannelError where
  requestId : Nat
  errorCode : String
deriving DecidableEq

structure UpdateChannel where
  channelId : Nat
  nominalHashRate : Nat
  maximumTarget : List Nat
deriving DecidableEq

structure UpdateChannelError where
  channelId : Nat
  errorCode : String
deriving DecidableEq

structure CloseChannel where
  channelId : Nat
  reasonCode : String
deriving DecidableEq

structure SetExtranoncePrefix where
  channelId : Nat
  extranoncePrefix : List Nat
deriving DecidableEq

structure SubmitSharesStandard where
  channelId : Nat
  sequenceNumber : Nat
  jobId : Nat
  nonce : Nat
  ntime : Nat
  version : Nat
deriving DecidableEq

structure SubmitSharesExtended where
  channelId : Nat
  sequenceNumber : Nat
  jobId : Nat
  nonce : Nat
  ntime : Nat
  version : Nat
  extranonce : List Nat
deriving DecidableEq

structure SubmitSharesSuccess where
  channelId : Nat
  lastSequenceNumber : Nat
  newSubmitsAcceptedCount : Nat
  newSharesSum : Nat
deriving DecidableEq

structure SubmitSharesError where
  channelId : Nat
  sequenceNumber : Nat
  errorCode : String
deriving DecidableEq

structure NewMiningJob where
  channelId : Nat
  jobId : Nat
  minNtime : Option Nat
  version : Nat
  merkleRoot : List Nat
deriving DecidableEq

structure NewExtendedMiningJob where
  channelId : Nat
  jobId : Nat
  minNtime : Option Nat
  version : Nat
  versionRollingAllowed : Bool
  merklePath : List (List Nat)
  coinbaseTxPrefix : List Nat
  coinbaseTxSuffix : List Nat
deriving DecidableEq

structure SetNewPrevHashMining where
  channelId : Nat
  jobId : Nat
  prevHash : List Nat
  minNtime : Nat
  nbits : Nat
deriving DecidableEq

structure SetCustomMiningJob where
  channelId : Nat
  requestId : Nat
  miningJobToken : List Nat
  version : Nat
  prevHash : List Nat
  minNtime : Nat
  nbits : Nat
  coinbaseTxVersion : Nat
  coinbasePrefix : List Nat
  coinbaseTxInputNsequence : Nat
  coinbaseTxOutputs : List Nat
  coinbaseTxLocktime : Nat
  merklePath : List (List Nat)
deriving DecidableEq

structure SetCustomMiningJobSuccess where
  channelId : Nat
  requestId : Nat
  jobId : Nat
deriving DecidableEq

structure SetCustomMiningJobError where
  channelId : Nat
  requestId : Nat
  errorCode : String
deriving DecidableEq

structure SetTarget where
  channelId : Nat
  maximumTarget : List Nat
deriving DecidableEq

structure SetGroupChannel where
  groupChannelId : Nat
  channelIds : List Nat
deriving DecidableEq

structure AllocateMiningJobToken where
  userIdentifier : String
  requestId : Nat
deriving DecidableEq

structure AllocateMiningJobTokenSuccess where
  requestId : Nat
  miningJobToken : List Nat
  coinbaseTxOutputs : List Nat
deriving DecidableEq

structure DeclareMiningJob where
  requestId : Nat
  miningJobToken : List Nat
  version : Nat
  coinbaseTxPrefix : List Nat
  coinbaseTxSuffix : List Nat
  txIdsList : List (List Nat)
  excessData : List Nat
deriving DecidableEq

structure DeclareMiningJobSuccess where
  requestId : Nat
  newMiningJobToken : List Nat
deriving DecidableEq

structure DeclareMiningJobError where
  requestId : Nat
  errorCode : String
  errorDetails : List Nat
deriving DecidableEq

structure ProvideMissingTransactions where
  requestId : Nat
  unknownTxPositionList : List Nat
deriving DecidableEq

structure ProvideMissingTransactionsSuccess where
  requestId : Nat
  transactionList : List (List Nat)
deriving DecidableEq

structure PushSolution where
  extranonce : List Nat
  prevHash : List Nat
  nonce : Nat
  ntime : Nat
  nbits : Nat
  version : Nat
deriving DecidableEq

structure CoinbaseOutputConstraints where
  coinbaseOutputMaxAdditionalSize : Nat
  coinbaseOutputMaxAdditionalSigops : Nat
deriving DecidableEq

structure NewTemplate where
  templateId : Nat
  futureTemplate : Bool
  version : Nat
  coinbaseTxVersion : Nat
  coinbasePrefix : List Nat
  coinbaseTxInputSequence : Nat
  coinbaseTxValueRemaining : Nat
  coinbaseTxOutputsCount : Nat
  coinbaseTxOutputs : List Nat
  coinbaseTxLocktime : Nat
  merklePath : List (List Nat)
deriving DecidableEq

structure SetNewPrevHashTemplateDistribution where
  templateId : Nat
  prevHash : List Nat
  headerTimestamp : Nat
  nbits : Nat
  target : List Nat
deriving DecidableEq

structure RequestTransactionData where
  templateId : Nat
deriving DecidableEq

structure RequestTransactionDataSuccess where
  templateId : Nat
  excessData : List Nat
  transactionList : List (List Nat)
deriving DecidableEq

structure RequestTransactionDataError where
  templateId : Nat
  errorCode : String
deriving DecidableEq

structure SubmitSolution where
  templateId : Nat
  version : Nat
  headerTimestamp : Nat
  headerNonce : Nat
  coinbaseTx : List Nat
deriving DecidableEq

/-- The external tagged union over every Sv2 message type
(`messages/mod.rs`, `enum Sv2Message`). -/
inductive Sv2Message
  | setupConnection (m : SetupConnection)
  | setupConnectionSuccess (m : SetupConnectionSuccess)
  | setupConnectionError (m : SetupConnectionError)
  | channelEndpointChanged (m : ChannelEndpointChanged)
  | reconnect (m : Reconnect)
  | openStandardMiningChannel (m : OpenStandardMiningChannel)
  | openStandardMiningChannelSuccess (m : OpenStandardMiningChannelSuccess)
  | openExtendedMiningChannel (m : OpenExtendedMiningChannel)
  | openExtendedMiningChannelSuccess (m : OpenExtendedMiningChannelSuccess)
  | openMiningChannelError (m : OpenMiningChannelError)
  | updateChannel (m : UpdateChannel)
  | updateChannelError (m : UpdateChannelError)
  | closeChannel (m : CloseChannel)
  | setExtranoncePrefix (m : SetExtranoncePrefix)
  | submitSharesStandard (m : SubmitSharesStandard)
  | submitSharesExtended (m : SubmitSharesExtended)
  | submitSharesSuccess (m : SubmitSharesSuccess)
  | submitSharesError (m : SubmitSharesError)
  | newMiningJob (m : NewMiningJob)
  | newExtendedMiningJob (m : NewExtendedMiningJob)
  | setNewPrevHashMining (m : SetNewPrevHashMining)
  | setCustomMiningJob (m : SetCustomMiningJob)
  | setCustomMiningJobSuccess (m : SetCustomMiningJobSuccess)
  | setCustomMiningJobError (m : SetCustomMiningJobError)
  | setTarget (m : SetTarget)
  | setGroupChannel (m : SetGroupChannel)
  | allocateMiningJobToken (m : AllocateMiningJobToken)
  | allocateMiningJobTokenSuccess (m : AllocateMiningJobTokenSuccess)
  | declareMiningJob (m : DeclareMiningJob)
  | declareMiningJobSuccess (m : DeclareMiningJobSuccess)
  | declareMiningJobError (m : DeclareMiningJobError)
  | provideMissingTransactions (m : ProvideMissingTransactions)
  | provideMissingTransactionsSuccess (m : ProvideMissingTransactionsSuccess)
  | pushSolution (m : PushSolution)
  | coinbaseOutputConstraints (m : CoinbaseOutputConstraints)
  | newTemplate (m : NewTemplate)
  | setNewPrevHashTemplateDistribution (m : SetNewPrevHashTemplateDistribution)
  | requestTransactionData (m : RequestTransactionData)
  | requestTransactionDataSuccess (m : RequestTransactionDataSuccess)
  | requestTransactionDataError (m : RequestTransactionDataError)
  | submitSolution (m : SubmitSolution)
deriving DecidableEq

/-- The subprotocol discriminant (`common_messages_sv2::Protocol`), built
from a `u8` by `TryFrom`. -/
inductive InnerProtocol
  | miningProtocol
  | jobDeclarationProtocol
  | templateDistributionProtocol
  | jobDistributionProtocol
deriving DecidableEq

/-- `Protocol::try_from(u8)`: only the discriminants 0..=3 are valid. -/
def protocolFromU8 (n : Nat) : Except Sv2MessageError InnerProtocol :=
  if n = 0 then .ok .miningProtocol
  else if n = 1 then .ok .jobDeclarationProtocol
  else if n = 2 then .ok .templateDistributionProtocol
  else if n = 3 then .ok .jobDistributionProtocol
  else .error .failedToConvertProtocol

/-- `protocol as u8` on the inner discriminant. -/
def protocolToU8 : InnerProtocol → Nat
  | .miningProtocol => 0
  | .jobDeclarationProtocol => 1
  | .templateDistributionProtocol => 2
  | .jobDistributionProtocol => 3

/-- Inner `SetupConnection` (`common_messages_sv2`): the protocol field is
the typed discriminant; the length-checked strings keep their value. -/
structure InnerSetupConnection where
  protocol : InnerProtocol
  minVersion : Nat
  maxVersion : Nat
  flags : Nat
  endpointHost : String
  endpointPort : Nat
  vendor : String
  hardwareVersion : String
  firmware : String
  deviceId : String
deriving DecidableEq

/-- Inner `OpenStandardMiningChannel` (`mining_sv2`): `request_id` is held
as its 4-byte little-endian representation (`U32AsRef`). -/
structure InnerOpenStandardMiningChannel where
  requestId : List Nat
  userIdentity : String
  nominalHashRate : Nat
  maxTarget : List Nat
deriving DecidableEq

/-- Inner `OpenStandardMiningChannelSuccess` (`mining_sv2`): `request_id`
is held as its 4-byte little-endian representation (`U32AsRef`). -/
structure InnerOpenStandardMiningChannelSuccess where
  requestId : List Nat
  channelId : Nat
  target : List Nat
  extranoncePrefix : List Nat
  groupChannelId : Nat
deriving DecidableEq

/-- `parsers_sv2::CommonMessages`.  Message payloads whose inner type only
length-validates the external fields reuse the external record, since a
successful conversion preserves every field value. -/
inductive InnerCommonMessages
  | setupConnection (m : InnerSetupConnection)
  | setupConnectionSuccess (m : SetupConnectionSuccess)
  | setupConnectionError (m : SetupConnectionError)
  | channelEndpointChanged (m : ChannelEndpointChanged)
  | reconnect (m : Reconnect)
deriving DecidableEq

/-- `parsers_sv2::Mining`. -/
inductive InnerMiningMessages
  | openStandardMiningChannel (m : InnerOpenStandardMiningChannel)
  | openStandardMiningChannelSuccess (m : InnerOpenStandardMiningChannelSuccess)
  | openExtendedMiningChannel (m : OpenExtendedMiningChannel)
  | openExtendedMiningChannelSuccess (m : OpenExtendedMiningChannelSuccess)
  | openMiningChannelError (m : OpenMiningChannelError)
  | updateChannel (m : UpdateChannel)
  | updateChannelError (m : UpdateChannelError)
  | closeChannel (m : CloseChannel)
  | setExtranoncePrefix (m : SetExtranoncePrefix)
  | submitSharesStandard (m : SubmitSharesStandard)
  | submitSharesExtended (m : SubmitSharesExtended)
  | submitSharesSuccess (m : SubmitSharesSuccess)
  | submitSharesError (m : SubmitSharesError)
  | newMiningJob (m : NewMiningJob)
  | newExtendedMiningJob (m : NewExtendedMiningJob)
  | setNewPrevHash (m : SetNewPrevHashMining)
  | setCustomMiningJob (m : SetCustomMiningJob)
  | setCustomMiningJobSuccess (m : SetCustomMiningJobSuccess)
  | setCustomMiningJobError (m : SetCustomMiningJobError)
  | setTarget (m : SetTarget)
  | setGroupChannel (m : SetGroupChannel)
deriving DecidableEq

/-- `parsers_sv2::JobDeclaration`. -/
inductive InnerJobDeclarationMessages
  | allocateMiningJobToken (m : AllocateMiningJobToken)
  | allocateMiningJobTokenSuccess (m : AllocateMiningJobTokenSuccess)
  | declareMiningJob (m : DeclareMiningJob)
  | declareMiningJobSuccess (m : DeclareMiningJobSuccess)
  | declareMiningJobError (m : DeclareMiningJobError)
  | provideMissingTransactions (m : ProvideMissingTransactions)
  | provideMissingTransactionsSuccess (m : ProvideMissingTransactionsSuccess)
  | pushSolution (m : PushSolution)
deriving DecidableEq

/-- `parsers_sv2::TemplateDistribution`. -/
inductive InnerTemplateDistributionMessages
  | coinbaseOutputConstraints (m : CoinbaseOutputConstraints)
  | newTemplate (m : NewTemplate)
  | setNewPrevHash (m : SetNewPrevHashTemplateDistribution)
  | requestTransactionData (m : RequestTransactionData)
  | requestTransactionDataSuccess (m : RequestTransactionDataSuccess)
  | requestTransactionDataError (m : RequestTransactionDataError)
  | submitSolution (m : SubmitSolution)
deriving DecidableEq

/-- `parsers_sv2::AnyMessage`, the internal tagged representation. -/
inductive InnerAnyMessage
  | common (m : InnerCommonMessages)
  | mining (m : InnerMiningMessages)
  | jobDeclaration (m : InnerJobDeclarationMessages)
  | templateDistribution (m : InnerTemplateDistributionMessages)
deriving DecidableEq

/-- Conversion of a `String` into a bounded inner string (`Str0255`):
fails when the UTF-8 byte length exceeds 255, otherwise the value is kept
unchanged (`String::from_utf8_lossy` restores it exactly since Rust
strings are valid UTF-8). -/
def checkStr (s : String) : Except Sv2MessageError String :=
  if s.utf8ByteSize ≤ 255 then .ok s else .error .failedToSerializeString

/-- Conversion of a byte vector into a bounded inner byte string
(`B032`/`B0255`/`B064K`/`B016M` according to `maxLen`): fails when the
length exceeds the bound, otherwise keeps the bytes. -/
def checkBytes (maxLen : Nat) (b : List Nat) : Except Sv2MessageError (List Nat) :=
  if b.length ≤ maxLen then .ok b else .error .failedToSerializeByteArray

/-- Conversion of a byte vector into an exact-size inner value
(`U256`, 32 bytes, or `[u8; 32]`): fails unless the length is exactly `n`. -/
def checkExact (n : Nat) (b : List Nat) : Except Sv2MessageError (List Nat) :=
  if b.length = n then .ok b else .error .failedToSerializeByteArray

/-- Fail-fast elementwise conversion, as produced by
`into_iter().map(try_into).collect::<Result<Vec<_>,_>>()`. -/
def checkEach {α : Type} (f : α → Except Sv2MessageError α) :
    List α → Except Sv2MessageError (List α)
  | [] => .ok []
  | a :: as => do
      let b ← f a
      let bs ← checkEach f as
      .ok (b :: bs)

/-- `sv2_message_to_inner` (`messages/mod.rs`): converts an external
message into the internal tagged representation, validating every
bounded field in the order the source performs the conversions. -/
def sv2_message_to_inner : Sv2Message → Except Sv2MessageError InnerAnyMessage
  | .setupConnection m => do
      let protocol ← protocolFromU8 m.protocol
      let endpointHost ← checkStr m.endpointHost
      let vendor ← checkStr m.vendor
      let hardwareVersion ← checkStr m.hardwareVersion
      let firmware ← checkStr m.firmware
      let deviceId ← checkStr m.deviceId
      .ok (.common (.setupConnection ⟨protocol, m.minVersion, m.maxVersion, m.flags,
        endpointHost, m.endpointPort, vendor, hardwareVersion, firmware, deviceId⟩))
  | .setupConnectionSuccess m => .ok (.common (.setupConnectionSuccess m))
  | .setupConnectionError m => do
      let errorCode ← checkStr m.errorCode
      .ok (.common (.setupConnectionError ⟨m.flags, errorCode⟩))
  | .channelEndpointChanged m => .ok (.common (.channelEndpointChanged m))
  | .reconnect m => do
      let newHost ← checkStr m.newHost
      .ok (.common (.reconnect ⟨newHost, m.newPort⟩))
  | .openStandardMiningChannel m => do
      let maxTarget ← checkExact 32 m.maxTarget
      let userIdentity ← checkStr m.userIdentity
      .ok (.mining (.openStandardMiningChannel
        ⟨toLe4 m.requestId, userIdentity, m.nominalHashRate, maxTarget⟩))
  | .openStandardMiningChannelSuccess m => do
      let target ← checkExact 32 m.target
      let extranoncePrefix ← checkBytes 32 m.extranoncePrefix
      .ok (.mining (.openStandardMiningChannelSuccess
        ⟨toLe4 m.requestId, m.channelId, target, extranoncePrefix, m.groupChannelId⟩))
  | .openExtendedMiningChannel m => do
      let maxTarget ← checkExact 32 m.maxTarget
      let userIdentity ← checkStr m.userIdentity
      .ok (.mining (.openExtendedMiningChannel
        ⟨m.requestId, userIdentity, m.nominalHashRate, maxTarget, m.minExtranonceSize⟩))
  | .openExtendedMiningChannelSuccess m => do
      let target ← checkExact 32 m.target
      let extranoncePrefix ← checkBytes 32 m.extranoncePrefix
      .ok (.mining (.openExtendedMiningChannelSuccess
        ⟨m.requestId, m.channelId, target, m.extranonceSize, extranoncePrefix⟩))
  | .openMiningChannelError m => do
      let errorCode ← checkStr m.errorCode
      .ok (.mining (.openMiningChannelError ⟨m.requestId, errorCode⟩))
  | .updateChannel m => do
      let maximumTarget ← checkExact 32 m.maximumTarget
      .ok (.mining (.updateChannel ⟨m.channelId, m.nominalHashRate, maximumTarget⟩))
  | .updateChannelError m => do
      let errorCode ← checkStr m.errorCode
      .ok (.mining (.updateChannelError ⟨m.channelId, errorCode⟩))
  | .closeChannel m => do
      let reasonCode ← checkStr m.reasonCode
      .ok (.mining (.closeChannel ⟨m.channelId, reasonCode⟩))
  | .setExtranoncePrefix m => do
      let extranoncePrefix ← checkBytes 32 m.extranoncePrefix
      .ok (.mining (.setExtranoncePrefix ⟨m.channelId, extranoncePrefix⟩))
  | .submitSharesStandard m => .ok (.mining (.submitSharesStandard m))
  | .submitSharesExtended m => do
      let extranonce ← checkBytes 32 m.extranonce
      .ok (.mining (.submitSharesExtended ⟨m.channelId, m.sequenceNumber, m.jobId,
        m.nonce, m.ntime, m.version, extranonce⟩))
  | .submitSharesSuccess m => .ok (.mining (.submitSharesSuccess m))
  | .submitSharesError m => do
      let errorCode ← checkStr m.errorCode
      .ok (.mining (.submitSharesError ⟨m.channelId, m.sequenceNumber, errorCode⟩))
  | .newMiningJob m => do
      let merkleRoot ← checkBytes 32 m.merkleRoot
      .ok (.mining (.newMiningJob ⟨m.channelId, m.jobId, m.minNtime, m.version, merkleRoot⟩))
  | .newExtendedMiningJob m => do
      let merklePath ← checkEach (checkExact 32) m.merklePath
      let coinbaseTxPrefix ← checkBytes 65535 m.coinbaseTxPrefix
      let coinbaseTxSuffix ← checkBytes 65535 m.coinbaseTxSuffix
      .ok (.mining (.newExtendedMiningJob ⟨m.channelId, m.jobId, m.minNtime, m.version,
        m.versionRollingAllowed, merklePath, coinbaseTxPrefix, coinbaseTxSuffix⟩))
  | .setNewPrevHashMining m => do
      let prevHash ← checkExact 32 m.prevHash
      .ok (.mining (.setNewPrevHash ⟨m.channelId, m.jobId, prevHash, m.minNtime, m.nbits⟩))
  | .setCustomMiningJob m => do
      let merklePath ← checkEach (checkExact 32) m.merklePath
      let miningJobToken ← checkBytes 255 m.miningJobToken
      let prevHash ← checkExact 32 m.prevHash
      let coinbasePrefix ← checkBytes 255 m.coinbasePrefix
      let coinbaseTxOutputs ← checkBytes 65535 m.coinbaseTxOutputs
      .ok (.mining (.setCustomMiningJob ⟨m.channelId, m.requestId, miningJobToken,
        m.version, prevHash, m.minNtime, m.nbits, m.coinbaseTxVersion, coinbasePrefix,
        m.coinbaseTxInputNsequence, coinbaseTxOutputs, m.coinbaseTxLocktime, merklePath⟩))
  | .setCustomMiningJobSuccess m => .ok (.mining (.setCustomMiningJobSuccess m))
  | .setCustomMiningJobError m => do
      let errorCode ← checkStr m.errorCode
      .ok (.mining (.setCustomMiningJobError ⟨m.channelId, m.requestId, errorCode⟩))
  | .setTarget m => do
      let maximumTarget ← checkExact 32 m.maximumTarget
      .ok (.mining (.setTarget ⟨m.channelId, maximumTarget⟩))
  | .setGroupChannel m => .ok (.mining (.setGroupChannel m))
  | .coinbaseOutputConstraints m => .ok (.templateDistribution (.coinbaseOutputConstraints m))
  | .newTemplate m => do
      let merklePath ← checkEach (checkExact 32) m.merklePath
      let coinbasePrefix ← checkBytes 255 m.coinbasePrefix
      let coinbaseTxOutputs ← checkBytes 65535 m.coinbaseTxOutputs
      .ok (.templateDistribution (.newTemplate ⟨m.templateId, m.futureTemplate, m.version,
        m.coinbaseTxVersion, coinbasePrefix, m.coinbaseTxInputSequence,
        m.coinbaseTxValueRemaining, m.coinbaseTxOutputsCount, coinbaseTxOutputs,
        m.coinbaseTxLocktime, merklePath⟩))
  | .setNewPrevHashTemplateDistribution m => do
      let prevHash ← checkExact 32 m.prevHash
      let target ← checkExact 32 m.target
      .ok (.templateDistribution (.setNewPrevHash
        ⟨m.templateId, prevHash, m.headerTimestamp, m.nbits, target⟩))
  | .requestTransactionData m => .ok (.templateDistribution (.requestTransactionData m))
  | .requestTransactionDataSuccess m => do
      let transactionList ← checkEach (checkBytes 16777215) m.transactionList
      let excessData ← checkBytes 65535 m.excessData
      .ok (.templateDistribution (.requestTransactionDataSuccess
        ⟨m.templateId, excessData, transactionList⟩))
  | .requestTransactionDataError m => do
      let errorCode ← checkStr m.errorCode
      .ok (.templateDistribution (.requestTransactionDataError ⟨m.templateId, errorCode⟩))
  | .submitSolution m => do
      let coinbaseTx ← checkBytes 65535 m.coinbaseTx
      .ok (.templateDistribution (.submitSolution ⟨m.templateId, m.version,
        m.headerTimestamp, m.headerNonce, coinbaseTx⟩))
  | .allocateMiningJobToken m => do
      let userIdentifier ← checkStr m.userIdentifier
      .ok (.jobDeclaration (.allocateMiningJobToken ⟨userIdentifier, m.requestId⟩))
  | .allocateMiningJobTokenSuccess m => do
      let miningJobToken ← checkBytes 255 m.miningJobToken
      let coinbaseTxOutputs ← checkBytes 65535 m.coinbaseTxOutputs
      .ok (.jobDeclaration (.allocateMiningJobTokenSuccess
        ⟨m.requestId, miningJobToken, coinbaseTxOutputs⟩))
  | .declareMiningJob m => do
      let txIdsList ← checkEach (checkExact 32) m.txIdsList
      let miningJobToken ← checkBytes 255 m.miningJobToken
      let coinbaseTxPrefix ← checkBytes 65535 m.coinbaseTxPrefix
      let coinbaseTxSuffix ← checkBytes 65535 m.coinbaseTxSuffix
      let excessData ← checkBytes 65535 m.excessData
      .ok (.jobDeclaration (.declareMiningJob ⟨m.requestId, miningJobToken, m.version,
        coinbaseTxPrefix, coinbaseTxSuffix, txIdsList, excessData⟩))
  | .declareMiningJobSuccess m => do
      let newMiningJobToken ← checkBytes 255 m.newMiningJobToken
      .ok (.jobDeclaration (.declareMiningJobSuccess ⟨m.requestId, newMiningJobToken⟩))
  | .declareMiningJobError m => do
      let errorCode ← checkStr m.errorCode
      let errorDetails ← checkBytes 65535 m.errorDetails
      .ok (.jobDeclaration (.declareMiningJobError ⟨m.requestId, errorCode, errorDetails⟩))
  | .provideMissingTransactions m => .ok (.jobDeclaration (.provideMissingTransactions m))
  | .provideMissingTransactionsSuccess m => do
      let transactionList ← checkEach (checkBytes 16777215) m.transactionList
      .ok (.jobDeclaration (.provideMissingTransactionsSuccess
        ⟨m.requestId, transactionList⟩))
  | .pushSolution m => do
      let extranonce ← checkBytes 32 m.extranonce
      let prevHash ← checkExact 32 m.prevHash
      .ok (.jobDeclaration (.pushSolution
        ⟨extranonce, prevHash, m.nonce, m.ntime, m.nbits, m.version⟩))

/-- `inner_to_sv2_message` (`messages/mod.rs`): converts the internal
representation back to the external one.  Total by construction: every
inner variant is matched, none is dropped and no failure is possible. -/
def inner_to_sv2_message : InnerAnyMessage → Sv2Message
  | .common (.setupConnection m) => .setupConnection ⟨protocolToU8 m.protocol, m.minVersion,
      m.maxVersion, m.flags, m.endpointHost, m.endpointPort, m.vendor, m.hardwareVersion,
      m.firmware, m.deviceId⟩
  | .common (.setupConnectionSuccess m) => .setupConnectionSuccess m
  | .common (.setupConnectionError m) => .setupConnectionError m
  | .common (.channelEndpointChanged m) => .channelEndpointChanged m
  | .common (.reconnect m) => .reconnect m
  | .mining (.openStandardMiningChannel m) => .openStandardMiningChannel
      ⟨fromLe4 m.requestId, m.userIdentity, m.nominalHashRate, m.maxTarget⟩
  | .mining (.openStandardMiningChannelSuccess m) => .openStandardMiningChannelSuccess
      ⟨fromLe4 m.requestId, m.channelId, m.target, m.extranoncePrefix, m.groupChannelId⟩
  | .mining (.openExtendedMiningChannel m) => .openExtendedMiningChannel m
  | .mining (.openExtendedMiningChannelSuccess m) => .openExtendedMiningChannelSuccess m
  | .mining (.openMiningChannelError m) => .openMiningChannelError m
  | .mining (.updateChannel m) => .updateChannel m
  | .mining (.updateChannelError m) => .updateChannelError m
  | .mining (.closeChannel m) => .closeChannel m
  | .mining (.setExtranoncePrefix m) => .setExtranoncePrefix m
  | .mining (.submitSharesStandard m) => .submitSharesStandard m
  | .mining (.submitSharesExtended m) => .submitSharesExtended m
  | .mining (.submitSharesSuccess m) => .submitSharesSuccess m
  | .mining (.submitSharesError m) => .submitSharesError m
  | .mining (.newMiningJob m) => .newMiningJob m
  | .mining (.newExtendedMiningJob m) => .newExtendedMiningJob m
  | .mining (.setNewPrevHash m) => .setNewPrevHashMining m
  | .mining (.setCustomMiningJob m) => .setCustomMiningJob m
  | .mining (.setCustomMiningJobSuccess m) => .setCustomMiningJobSuccess m
  | .mining (.setCustomMiningJobError m) => .setCustomMiningJobError m
  | .mining (.setTarget m) => .setTarget m
  | .mining (.setGroupChannel m) => .setGroupChannel m
  | .jobDeclaration (.allocateMiningJobToken m) => .allocateMiningJobToken m
  | .jobDeclaration (.allocateMiningJobTokenSuccess m) => .allocateMiningJobTokenSuccess m
  | .jobDeclaration (.declareMiningJob m) => .declareMiningJob m
  | .jobDeclaration (.declareMiningJobSuccess m) => .declareMiningJobSuccess m
  | .jobDeclaration (.declareMiningJobError m) => .declareMiningJobError m
  | .jobDeclaration (.provideMissingTransactions m) => .provideMissingTransactions m
  | .jobDeclaration (.provideMissingTransactionsSuccess m) => .provideMissingTransactionsSuccess m
  | .jobDeclaration (.pushSolution m) => .pushSolution m
  | .templateDistribution (.coinbaseOutputConstraints m) => .coinbaseOutputConstraints m
  | .templateDistribution (.newTemplate m) => .newTemplate m
  | .templateDistribution (.setNewPrevHash m) => .setNewPrevHashTemplateDistribution m
  | .templateDistribution (.requestTransactionData m) => .requestTransactionData m
  | .templateDistribution (.requestTransactionDataSuccess m) => .requestTransactionDataSuccess m
  | .templateDistribution (.requestTransactionDataError m) => .requestTransactionDataError m
  | .templateDistribution (.submitSolution m) => .submitSolution m

/-- Well-formedness of an external message: the `u32` fields that the
translator packs into a 4-byte inner representation are within `u32`
range (guaranteed by the Rust `u32` type of those fields). -/
def Sv2Message.wf : Sv2Message → Prop
  | .openStandardMiningChannel m => m.requestId < 2 ^ 32
  | .openStandardMiningChannelSuccess m => m.requestId < 2 ^ 32
  | _ => True

/-! ## Encrypted transport codec -/

/-- `Sv2CodecError` (`codec/error.rs`). -/
inductive Sv2CodecError
  | lockError
  | badKey
  | failedToCreateInitiator
  | failedToCreateResponder
  | failedHandshakeStep0
  | failedHandshakeStep1
  | failedHandshakeStep2
  | badInitiatorFrame
  | badResponderFrame
  | failedToConvertMessageToFrame
  | failedToDecodeFrame
  | failedToGetFrameHeader
  | sv2MessagesError (e : Sv2MessageError)
  | missingBytes
  | invalidDataSize (expected : Nat) (actual : Nat)
deriving DecidableEq

/-- Handshake role, fixed at construction (`codec_sv2::HandshakeRole`). -/
inductive HandshakeRole
  | initiator
  | responder
deriving DecidableEq

/-- Modelled from the spec: `codec_sv2::State`, the codec state machine
`Handshaking(role) → Transport` (§4.5).  The keying material established
by the handshake is abstracted to a transport nonce that the symmetric
cipher advances; what matters for the claims is the phase tag and that
transitions are one-directional. -/
inductive InnerCodecState
  | handShake (role : HandshakeRole)
  | transport (nonce : Nat)
deriving DecidableEq

/-- Modelled from the spec: the symmetric transport cipher advances its
state on every encryption/decryption; handshake-phase states are
unaffected.  The byte content of ciphertexts is delegated to the oracle
functions supplied to the encoder/decoder. -/
def advanceOnCrypt : InnerCodecState → InnerCodecState
  | .transport n => .transport (n + 1)
  | s => s

/-- `ELLSWIFT_ENCODING_SIZE` (`noise_sv2`): byte length of the
initiator's first handshake message. -/
def ellswiftEncodingSize : Nat := 64

/-- `INITIATOR_EXPECTED_HANDSHAKE_MESSAGE_SIZE` (`noise_sv2`): byte
length of the responder's handshake reply. -/
def initiatorExpectedHandshakeMessageSize : Nat := 234

/-- `Sv2CodecState::new_initiator` (`codec/state.rs`): requires a 32-byte
authority public key; `cryptoOk` stands for `Initiator::from_raw_k`
accepting the key material. -/
def new_initiator (authorityPubKey : List Nat) (cryptoOk : Bool) :
    Except Sv2CodecError InnerCodecState :=
  if authorityPubKey.length ≠ 32 then .error .badKey
  else if ¬ cryptoOk then .error .failedToCreateInitiator
  else .ok (.handShake .initiator)

/-- `Sv2CodecState::new_responder` (`codec/state.rs`): requires 32-byte
authority public and private keys; `cryptoOk` stands for
`Responder::from_authority_kp` accepting the key material. -/
def new_responder (authorityPubKey authorityPrivKey : List Nat) (certValiditySecs : Nat)
    (cryptoOk : Bool) : Except Sv2CodecError InnerCodecState :=
  if authorityPubKey.length ≠ 32 then .error .badKey
  else if authorityPrivKey.length ≠ 32 then .error .badKey
  else if ¬ cryptoOk then .error .failedToCreateResponder
  else .ok (.handShake .responder)

/-- `Sv2CodecState::step_0` (`codec/state.rs`): initiator-only; produces
the first handshake payload (`out`, a cryptographic output treated as an
oracle) and leaves the phase unchanged. -/
def step_0 (st : InnerCodecState) (cryptoOk : Bool) (out : List Nat) :
    Except Sv2CodecError (List Nat) :=
  match st with
  | .handShake .initiator => if cryptoOk then .ok out else .error .failedHandshakeStep0
  | _ => .error .failedHandshakeStep0

/-- `Sv2CodecState::step_1` (`codec/state.rs`): the wrapper first demands
an exactly `ELLSWIFT_ENCODING_SIZE`-byte initiator frame, then the inner
`step_1` (responder-only, authentication checkpoint, success abstracted
by `cryptoOk`) yields the responder payload and the transport state,
which the wrapper stores. -/
def step_1 (st : InnerCodecState) (initiatorFrame : List Nat) (cryptoOk : Bool)
    (out : List Nat) : Except Sv2CodecError (List Nat × InnerCodecState) :=
  if initiatorFrame.length ≠ ellswiftEncodingSize then .error .badInitiatorFrame
  else match st with
    | .handShake .responder =>
        if cryptoOk then .ok (out, .transport 0) else .error .failedHandshakeStep1
    | _ => .error .failedHandshakeStep1

/-- `Sv2CodecState::step_2` (`codec/state.rs`): the wrapper first demands
an exactly `INITIATOR_EXPECTED_HANDSHAKE_MESSAGE_SIZE`-byte responder
frame, then the inner `step_2` (initiator-only) yields the transport
state, which the wrapper stores. -/
def step_2 (st : InnerCodecState) (responderFrame : List Nat) (cryptoOk : Bool) :
    Except Sv2CodecError InnerCodecState :=
  if responderFrame.length ≠ initiatorExpectedHandshakeMessageSize then
    .error .badResponderFrame
  else match st with
    | .handShake .initiator =>
        if cryptoOk then .ok (.transport 0) else .error .failedHandshakeStep2
    | _ => .error .failedHandshakeStep2

/-- `Sv2CodecState::handshake_complete` (`codec/state.rs`): true exactly
on `Transport` states. -/
def handshake_complete : InnerCodecState → Bool
  | .transport _ => true
  | _ => false

/-! ### Frame decoder -/

/-- Modelled from the spec: the header size of a frame
(`[message-type][length-prefixed payload]`, §6); the modelled header is
one message-type byte followed by one payload-length byte. -/
def headerSize : Nat := 2

/-- Modelled from the spec: `codec_sv2::StandardNoiseDecoder`, "a single
resumable receive buffer sized to exactly the bytes needed for the next
parse step" (§4.5).  `buffered` holds the bytes of the frame currently
being received. -/
structure InnerNoiseDecoder where
  buffered : List Nat
deriving DecidableEq

/-- Total number of bytes the current frame occupies, as far as the
buffered bytes reveal it: the header, plus the payload length once the
header has been received. -/
def neededTotal (buf : List Nat) : Nat :=
  if buf.length < headerSize then headerSize else headerSize + buf.getD 1 0

/-- `writable().len()`: how many further bytes the inner decoder
requests for its next parse step. -/
def InnerNoiseDecoder.writable (d : InnerNoiseDecoder) : Nat :=
  neededTotal d.buffered - d.buffered.length

/-- Result of one inner decoding attempt. -/
inductive NextFrameRes
  | frame (msgType : Nat) (payload : List Nat)
  | missingBytes (n : Nat)
deriving DecidableEq

/-- Modelled from the spec: `next_frame` on the inner decoder.  If the
buffered bytes complete a frame, the frame is decrypted (the cipher
advances the transport state; the modelled cipher is length-preserving
so the payload bytes are carried through) and the buffer is reset for
the next frame; otherwise the additional byte count is reported and
nothing is consumed. -/
def nextFrame (d : InnerNoiseDecoder) (st : InnerCodecState) :
    NextFrameRes × InnerNoiseDecoder × InnerCodecState :=
  if neededTotal d.buffered ≤ d.buffered.length then
    (.frame (d.buffered.getD 0 0) (d.buffered.drop headerSize), ⟨[]⟩, advanceOnCrypt st)
  else
    (.missingBytes (neededTotal d.buffered - d.buffered.length), d, st)

/-- `Sv2Decoder` (`codec/decoder.rs`): the inner resumable decoder plus
the stored required buffer size exposed through `buffer_size()`. -/
structure Sv2Decoder where
  inner : InnerNoiseDecoder
  bufferSize : Nat
deriving DecidableEq

/-- `Sv2Decoder::new`: fresh inner decoder; the stored size is the inner
decoder's initial writable length. -/
def Sv2Decoder.new : Sv2Decoder :=
  { inner := ⟨[]⟩, bufferSize := InnerNoiseDecoder.writable ⟨[]⟩ }

/-- `Sv2Decoder::try_decode` (`codec/decoder.rs`).  `parse` stands for
the payload deserialization `(msg_type, payload).try_into()` performed
by `binary_sv2` (external).  Mirrors the source: the size check runs
only for non-empty input; on success the stored buffer size becomes `0`
and the advanced state is written back; on missing bytes the stored size
becomes the reported count and the state is written back; on a parse
failure neither the stored size nor the shared state is updated although
the inner decoder has consumed the frame. -/
def try_decode (parse : Nat → List Nat → Option InnerAnyMessage) (dec : Sv2Decoder)
    (data : List Nat) (st : InnerCodecState) :
    Except Sv2CodecError Sv2Message × Sv2Decoder × InnerCodecState :=
  if data ≠ [] ∧ InnerNoiseDecoder.writable dec.inner ≠ data.length then
    (.error (.invalidDataSize (InnerNoiseDecoder.writable dec.inner) data.length), dec, st)
  else
    match nextFrame ⟨dec.inner.buffered ++ data⟩ st with
    | (.frame t payload, inner2, st2) =>
        match parse t payload with
        | some im => (.ok (inner_to_sv2_message im), ⟨inner2, 0⟩, st2)
        | none => (.error .failedToDecodeFrame, ⟨inner2, dec.bufferSize⟩, st)
    | (.missingBytes n, inner2, st2) => (.error .missingBytes, ⟨inner2, n⟩, st2)

/-! ### Frame encoder -/

/-- `Sv2Encoder::encode` inner step, modelled from the spec: framing and
encryption of the serialized payload under the (cloned) transport state;
`enc` is the symmetric cipher oracle applied with the current transport
nonce, and the state advances with every encryption.  In a handshake
phase the frame is passed through without advancing the state. -/
def innerEncodeFrame (enc : Nat → List Nat → List Nat) (payload : List Nat)
    (st : InnerCodecState) : List Nat × InnerCodecState :=
  match st with
  | .transport n => (enc n payload, .transport (n + 1))
  | s => (payload, s)

/-- `Sv2Encoder::encode` (`codec/encoder.rs`): converts the message to
the internal representation, serializes it into a frame (`ser`, the
external `binary_sv2` serializer, `none` when a variable-length field
exceeds its protocol maximum), clones the shared codec state, encrypts
under the clone, and returns the ciphertext together with the shared
state — which is returned exactly as it was read, since the source
never writes the advanced clone back. -/
def encode (ser : InnerAnyMessage → Option (List Nat)) (enc : Nat → List Nat → List Nat)
    (message : Sv2Message) (codecState : InnerCodecState) :
    Except Sv2CodecError (List Nat × InnerCodecState) :=
  match sv2_message_to_inner message with
  | .error e => .error (.sv2MessagesError e)
  | .ok innerMessage =>
    match ser innerMessage with
    | none => .error .failedToConvertMessageToFrame
    | some payload =>
        .ok ((innerEncodeFrame enc payload codecState).1, codecState)

/-! ## Channel servers -/

/-- `TxOutput` (`channels/txout.rs`): a coinbase reward output. -/
structure TxOutput where
  value : Nat
  scriptPubkey : List Nat
deriving DecidableEq

/-- `ShareValidationResult` (`channels/server/share_validation.rs`). -/
inductive ShareValidationResult
  | valid
  | validWithAcknowledgement (lastSequenceNumber newSubmitsAcceptedCount newSharesSum : Nat)
  | blockFound (templateId : Option Nat) (coinbase : List Nat)
deriving DecidableEq

/-- `ShareValidationError` (`channels/server/share_validation.rs`). -/
inductive ShareValidationError
  | invalid
  | stale
  | invalidJobId
  | doesNotMeetTarget
  | versionRollingNotAllowed
  | duplicateShare
  | invalidCoinbase
  | noChainTip
deriving DecidableEq

/-- `Sv2ServerStandardChannelError` (`channels/server/error.rs`). -/
inductive Sv2ServerStandardChannelError
  | failedToCreateStandardChannel
  | badMaxTarget
  | lockError
  | failedToUpdateChannel
  | messageIsNotNewTemplate
  | messageIsNotSetNewPrevHash
  | messageIsNotSubmitSharesStandard
  | messageIsNotNewMiningJob
  | failedToProcessNewPrevHash
  | failedToConvertMessage (e : Sv2MessageError)
  | failedToProcessNewTemplate
  | shareValidationError (e : ShareValidationError)
  | failedToGetActiveJob
  | failedToProcessGroupChannelJob
deriving DecidableEq

/-- `Sv2ServerExtendedChannelError` (`channels/server/error.rs`). -/
inductive Sv2ServerExtendedChannelError
  | lockError
  | badMaxTarget
  | invalidNominalHashrate
  | requestedMaxTargetOutOfRange
  | requestedMinExtranonceSizeTooLarge
  | failedToConvertMessage (e : Sv2MessageError)
  | failedToCreateExtendedChannel
  | failedToUpdateChannel
  | failedToProcessNewTemplate
  | failedToProcessNewPrevHash
  | failedToProcessSetCustomMiningJob
  | messageIsNotNewTemplate
  | messageIsNotSetNewPrevHash
  | messageIsNotSetCustomMiningJob
  | messageIsNotSubmitSharesExtended
  | messageIsNotNewExtendedMiningJob
  | shareValidationError (e : ShareValidationError)
  | failedToGetActiveJob
deriving DecidableEq

/-- `Sv2ServerGroupChannelError` (`channels/server/error.rs`). -/
inductive Sv2ServerGroupChannelError
  | lockError
  | failedToGetActiveJob
  | messageIsNotNewExtendedMiningJob
  | messageIsNotNewTemplate
  | messageIsNotSetNewPrevHash
  | failedToProcessNewTemplate
  | failedToConvertMessage (e : Sv2MessageError)
  | failedToProcessNewPrevHash
deriving DecidableEq

/-- Modelled from the spec: a mining job (§3 "Job"): id, origin template
(or none for a custom-declared job), header version, version-rolling
permission and the serialized coinbase kept for `BlockFound` reporting. -/
structure Job where
  jobId : Nat
  templateId : Option Nat
  version : Nat
  versionRollingAllowed : Bool
  coinbase : List Nat
deriving DecidableEq

/-- Modelled from the spec: the established prev-hash context (chain
tip), carrying the network-level target used for block detection. -/
structure ChainTip where
  prevHash : List Nat
  networkTarget : Nat
deriving DecidableEq

/-- Modelled from the spec: the state of a server-side channel
(`channels_sv2` `StandardChannel`/`ExtendedChannel`, §3 "Channel"):
identity, extranonce prefix, current and maximum target (256-bit values
as `Nat`), the future/active/past job partitions with the
template-to-job index (§4.2), the chain tip, and the accepted-share
accounting (§3).  Nominal hashrate is the raw `f32` bit pattern; its
semantics live in the oracle functions of `ChannelEnv`.  Past jobs are
modelled as all lying within the retention window (the spec leaves the
eviction policy open, §9). -/
structure InnerChannel where
  channelId : Nat
  userIdentity : String
  extranoncePrefix : List Nat
  maxTarget : Nat
  target : Nat
  nominalHashrate : Nat
  shareBatchSize : Nat
  expectedSharePerMinute : Nat
  versionRollingAllowed : Bool
  futureJobs : List (Nat × Job)
  activeJob : Option Job
  pastJobs : List (Nat × Job)
  futureTemplateToJobId : List (Nat × Nat)
  chainTip : Option ChainTip
  nextJobId : Nat
  seenSequenceNumbers : List Nat
  lastSequenceNumber : Nat
  acceptedCount : Nat
  sharesSum : Nat
  sharesSinceLastAck : Nat
deriving DecidableEq

/-- A share submission as consumed by validation (§3): channel id,
sequence number, job id, nonce, time, version and (for Extended
channels) the rolled extranonce, empty for Standard channels. -/
structure Share where
  channelId : Nat
  sequenceNumber : Nat
  jobId : Nat
  nonce : Nat
  ntime : Nat
  version : Nat
  extranonce : List Nat
deriving DecidableEq

/-- Oracles for the channel engine's external computations: the
proof-of-work hash recomputation (double-SHA256 over the assembled
header, external crypto), the per-share difficulty contribution, the
`f32` validity predicate ("positive and finite") and the deterministic
target derivation from hashrate and the share-rate expectation (§3
"Target"). -/
structure ChannelEnv where
  powHash : Share → Job → Option ChainTip → Nat
  shareDiff : Share → Nat
  hashrateOk : Nat → Bool
  computeTarget : Nat → Nat → Nat

/-- Lookup of a job id in an id-indexed job list. -/
def lookupJob : List (Nat × Job) → Nat → Option Job
  | [], _ => none
  | (id, j) :: rest, jid => if id = jid then some j else lookupJob rest jid

/-- Modelled from the spec: share step 1, resolve the job id "against
active, then past, job sets" (§4.3). -/
def findJob (ch : InnerChannel) (jid : Nat) : Option Job :=
  match ch.activeJob with
  | some j => if j.jobId = jid then some j else lookupJob ch.pastJobs jid
  | none => lookupJob ch.pastJobs jid

/-- Modelled from the spec: accepting a share folds it into the
accounting counters (§4.3 step 8): record the sequence number, advance
the last sequence number, increment the accepted count, accumulate the
difficulty sum and the batch counter. -/
def acceptShare (env : ChannelEnv) (s : Share) (ch : InnerChannel) : InnerChannel :=
  { ch with
    seenSequenceNumbers := s.sequenceNumber :: ch.seenSequenceNumbers
    lastSequenceNumber := s.sequenceNumber
    acceptedCount := ch.acceptedCount + 1
    sharesSum := ch.sharesSum + env.shareDiff s
    sharesSinceLastAck := ch.sharesSinceLastAck + 1 }

/-- Modelled from the spec: `validate_share` on the inner channel (§4.3,
steps 1–8 in the listed order).  The retention-window check (step 2)
never rejects because every retained past job is modelled as within the
window (§9 leaves the policy open); a block-found share is also folded
into the accounting. -/
def validateShareInner (env : ChannelEnv) (s : Share) (ch : InnerChannel) :
    Except ShareValidationError (ShareValidationResult × InnerChannel) :=
  match findJob ch s.jobId with
  | none => .error .invalidJobId
  | some job =>
    let h := env.powHash s job ch.chainTip
    if h > ch.target then .error .doesNotMeetTarget
    else if s.sequenceNumber ∈ ch.seenSequenceNumbers then .error .duplicateShare
    else if s.version ≠ job.version ∧ ¬ ch.versionRollingAllowed then
      .error .versionRollingNotAllowed
    else match ch.chainTip with
      | none => .error .noChainTip
      | some tip =>
        let ch' := acceptShare env s ch
        if h ≤ tip.networkTarget then .ok (.blockFound job.templateId job.coinbase, ch')
        else if ch'.sharesSinceLastAck ≥ ch.shareBatchSize then
          .ok (.validWithAcknowledgement s.sequenceNumber ch'.acceptedCount ch'.sharesSum,
               { ch' with sharesSinceLastAck := 0 })
        else .ok (.valid, ch')

/-- Modelled from the spec: inner channel construction
(`new_for_pool`): rejects a non-finite/non-positive hashrate, rejects a
requested maximum target below the derived target, otherwise starts with
the derived target (§4.3 `open`). -/
def innerNewForPool (env : ChannelEnv) (channelId : Nat) (userIdentity : String)
    (extranoncePrefix : List Nat) (maxTarget : Nat) (nominalHashrate : Nat)
    (versionRollingAllowed : Bool) (shareBatchSize : Nat) (expectedSharePerMinute : Nat) :
    Except Sv2ServerExtendedChannelError InnerChannel :=
  if ¬ env.hashrateOk nominalHashrate then .error .invalidNominalHashrate
  else
    let t := env.computeTarget nominalHashrate expectedSharePerMinute
    if t > maxTarget then .error .requestedMaxTargetOutOfRange
    else .ok
      { channelId := channelId
        userIdentity := userIdentity
        extranoncePrefix := extranoncePrefix
        maxTarget := maxTarget
        target := t
        nominalHashrate := nominalHashrate
        shareBatchSize := shareBatchSize
        expectedSharePerMinute := expectedSharePerMinute
        versionRollingAllowed := versionRollingAllowed
        futureJobs := []
        activeJob := none
        pastJobs := []
        futureTemplateToJobId := []
        chainTip := none
        nextJobId := 0
        seenSequenceNumbers := []
        lastSequenceNumber := 0
        acceptedCount := 0
        sharesSum := 0
        sharesSinceLastAck := 0 }

/-- Modelled from the spec: inner `update_channel` (§4.3 `update`):
recomputes the target from the new hashrate; a supplied requested
maximum target must not exceed the channel's ceiling; succeeds or fails
atomically. -/
def innerUpdateChannel (env : ChannelEnv) (ch : InnerChannel) (nominalHashrate : Nat)
    (requestedMaxTarget : Option Nat) : Except Sv2ServerExtendedChannelError InnerChannel :=
  if ¬ env.hashrateOk nominalHashrate then .error .invalidNominalHashrate
  else match requestedMaxTarget with
    | some m =>
        if m > ch.maxTarget then .error .requestedMaxTargetOutOfRange
        else .ok { ch with
          nominalHashrate := nominalHashrate
          target := min (env.computeTarget nominalHashrate ch.expectedSharePerMinute) m }
    | none => .ok { ch with
        nominalHashrate := nominalHashrate
        target := min (env.computeTarget nominalHashrate ch.expectedSharePerMinute)
          ch.maxTarget }

/-- Little-endian interpretation of a byte vector as a natural number
(the numeric reading of a 32-byte `Target`). -/
def leBytesToNat : List Nat → Nat
  | [] => 0
  | b :: bs => b + 256 * leBytesToNat bs

/-- Modelled from the spec: serialization of the pool-supplied coinbase
reward outputs appended to the coinbase skeleton (§4.3
`on_new_template`). -/
def serializeOutputs (outs : List TxOutput) : List Nat :=
  outs.foldr (fun o acc => o.scriptPubkey ++ acc) []

/-- Modelled from the spec: inner `on_new_template` (§4.3): builds a job
from the template's merkle path and coinbase skeleton with the reward
outputs appended; a future template inserts into the future set indexed
by job id and template id, otherwise the job becomes the active
candidate immediately. -/
def innerOnNewTemplate (t : NewTemplate) (outs : List TxOutput) (ch : InnerChannel) :
    Except Unit InnerChannel :=
  let job : Job :=
    { jobId := ch.nextJobId
      templateId := some t.templateId
      version := t.version
      versionRollingAllowed := ch.versionRollingAllowed
      coinbase := t.coinbasePrefix ++ serializeOutputs outs }
  if t.futureTemplate then
    .ok { ch with
      futureJobs := (job.jobId, job) :: ch.futureJobs
      futureTemplateToJobId := (t.templateId, job.jobId) :: ch.futureTemplateToJobId
      nextJobId := ch.nextJobId + 1 }
  else
    .ok { ch with activeJob := some job, nextJobId := ch.nextJobId + 1 }

/-- `Sv2StandardChannelServer::new` (`channels/server/standard.rs`): the
wrapper first demands an exactly 32-byte `max_target` (`BadMaxTarget`),
then delegates to the inner constructor, collapsing every inner failure
to `FailedToCreateStandardChannel`. -/
def Sv2StandardChannelServer.new (env : ChannelEnv) (channelId : Nat)
    (userIdentity : String) (extranoncePrefix : List Nat) (maxTarget : List Nat)
    (nominalHashrate : Nat) (shareBatchSize : Nat) (expectedSharePerMinute : Nat) :
    Except Sv2ServerStandardChannelError InnerChannel :=
  if maxTarget.length ≠ 32 then .error .badMaxTarget
  else
    match innerNewForPool env channelId userIdentity extranoncePrefix
        (leBytesToNat maxTarget) nominalHashrate false shareBatchSize
        expectedSharePerMinute with
    | .ok ch => .ok ch
    | .error _ => .error .failedToCreateStandardChannel

/-- `Sv2ExtendedChannelServer::new` (`channels/server/extended.rs`): the
wrapper first demands an exactly 32-byte `max_target` (`BadMaxTarget`),
then delegates to the inner constructor, forwarding its named failures;
the extra extranonce-size admission check (§4.3, Extended only) rejects
a requested rollable size that does not fit the remaining extranonce
space. -/
def Sv2ExtendedChannelServer.new (env : ChannelEnv) (channelId : Nat)
    (userIdentity : String) (extranoncePrefix : List Nat) (maxTarget : List Nat)
    (nominalHashrate : Nat) (versionRollingAllowed : Bool)
    (requestedMinRollableExtranonceSize : Nat) (shareBatchSize : Nat)
    (expectedSharePerMinute : Nat) :
    Except Sv2ServerExtendedChannelError InnerChannel :=
  if maxTarget.length ≠ 32 then .error .badMaxTarget
  else if requestedMinRollableExtranonceSize + extranoncePrefix.length > 32 then
    .error .requestedMinExtranonceSizeTooLarge
  else
    match innerNewForPool env channelId userIdentity extranoncePrefix
        (leBytesToNat maxTarget) nominalHashrate versionRollingAllowed shareBatchSize
        expectedSharePerMinute with
    | .ok ch => .ok ch
    | .error e => .error e

/-- `Sv2StandardChannelServer::update_channel`
(`channels/server/standard.rs`): the wrapper converts a supplied
requested maximum target, demanding exactly 32 bytes (`BadMaxTarget`)
before the channel is even locked, then delegates to the inner update,
collapsing inner failures to `FailedToUpdateChannel`.  An error leaves
the channel exactly as it was. -/
def Sv2StandardChannelServer.update_channel (env : ChannelEnv) (ch : InnerChannel)
    (nominalHashrate : Nat) (requestedMaxTarget : Option (List Nat)) :
    Except Sv2ServerStandardChannelError InnerChannel :=
  match requestedMaxTarget with
  | some bytes =>
      if bytes.length ≠ 32 then .error .badMaxTarget
      else
        match innerUpdateChannel env ch nominalHashrate (some (leBytesToNat bytes)) with
        | .ok ch' => .ok ch'
        | .error _ => .error .failedToUpdateChannel
  | none =>
      match innerUpdateChannel env ch nominalHashrate none with
      | .ok ch' => .ok ch'
      | .error _ => .error .failedToUpdateChannel

/-- `Sv2ExtendedChannelServer::update_channel`
(`channels/server/extended.rs`): same shape as the Standard wrapper with
the Extended error type. -/
def Sv2ExtendedChannelServer.update_channel (env : ChannelEnv) (ch : InnerChannel)
    (nominalHashrate : Nat) (requestedMaxTarget : Option (List Nat)) :
    Except Sv2ServerExtendedChannelError InnerChannel :=
  match requestedMaxTarget with
  | some bytes =>
      if bytes.length ≠ 32 then .error .badMaxTarget
      else
        match innerUpdateChannel env ch nominalHashrate (some (leBytesToNat bytes)) with
        | .ok ch' => .ok ch'
        | .error _ => .error .failedToUpdateChannel
  | none =>
      match innerUpdateChannel env ch nominalHashrate none with
      | .ok ch' => .ok ch'
      | .error _ => .error .failedToUpdateChannel

/-- `Sv2StandardChannelServer::on_new_template`
(`channels/server/standard.rs`): translates the template through
`sv2_message_to_inner`, defensively re-matches the translated variant
(`MessageIsNotNewTemplate` on mismatch), then applies the inner
template handler. -/
def Sv2StandardChannelServer.on_new_template (t : NewTemplate) (outs : List TxOutput)
    (ch : InnerChannel) : Except Sv2ServerStandardChannelError InnerChannel :=
  match sv2_message_to_inner (.newTemplate t) with
  | .error e => .error (.failedToConvertMessage e)
  | .ok anyMessage =>
    match anyMessage with
    | .templateDistribution (.newTemplate t') =>
        match innerOnNewTemplate t' outs ch with
        | .ok ch' => .ok ch'
        | .error _ => .error .failedToProcessNewTemplate
    | _ => .error .messageIsNotNewTemplate

/-- `Sv2ExtendedChannelServer::on_new_template`
(`channels/server/extended.rs`): same shape with the Extended error
type. -/
def Sv2ExtendedChannelServer.on_new_template (t : NewTemplate) (outs : List TxOutput)
    (ch : InnerChannel) : Except Sv2ServerExtendedChannelError InnerChannel :=
  match sv2_message_to_inner (.newTemplate t) with
  | .error e => .error (.failedToConvertMessage e)
  | .ok anyMessage =>
    match anyMessage with
    | .templateDistribution (.newTemplate t') =>
        match innerOnNewTemplate t' outs ch with
        | .ok ch' => .ok ch'
        | .error _ => .error .failedToProcessNewTemplate
    | _ => .error .messageIsNotNewTemplate

/-- `Sv2GroupChannelServer::on_new_template` (`channels/server/group.rs`):
same shape with the Group error type (the group channel shares the
modelled inner job state). -/
def Sv2GroupChannelServer.on_new_template (t : NewTemplate) (outs : List TxOutput)
    (ch : InnerChannel) : Except Sv2ServerGroupChannelError InnerChannel :=
  match sv2_message_to_inner (.newTemplate t) with
  | .error e => .error (.failedToConvertMessage e)
  | .ok anyMessage =>
    match anyMessage with
    | .templateDistribution (.newTemplate t') =>
        match innerOnNewTemplate t' outs ch with
        | .ok ch' => .ok ch'
        | .error _ => .error .failedToProcessNewTemplate
    | _ => .error .messageIsNotNewTemplate

/-- The share record fed to the inner validator by the Standard wrapper
(no extranonce is rolled on a Standard channel). -/
def shareOfStandard (s : SubmitSharesStandard) : Share :=
  ⟨s.channelId, s.sequenceNumber, s.jobId, s.nonce, s.ntime, s.version, []⟩

/-- The share record fed to the inner validator by the Extended wrapper. -/
def shareOfExtended (s : SubmitSharesExtended) : Share :=
  ⟨s.channelId, s.sequenceNumber, s.jobId, s.nonce, s.ntime, s.version, s.extranonce⟩

/-- `Sv2StandardChannelServer::validate_share`
(`channels/server/standard.rs`): translates the share through
`sv2_message_to_inner`, defensively re-matches the variant, runs the
inner validation and maps each inner outcome one-to-one onto the
wrapper's result and error types. -/
def Sv2StandardChannelServer.validate_share (env : ChannelEnv)
    (share : SubmitSharesStandard) (ch : InnerChannel) :
    Except Sv2ServerStandardChannelError (ShareValidationResult × InnerChannel) :=
  match sv2_message_to_inner (.submitSharesStandard share) with
  | .error e => .error (.failedToConvertMessage e)
  | .ok anyMessage =>
    match anyMessage with
    | .mining (.submitSharesStandard s) =>
        match validateShareInner env (shareOfStandard s) ch with
        | .ok r => .ok r
        | .error e => .error (.shareValidationError e)
    | _ => .error .messageIsNotSubmitSharesStandard

/-- `Sv2ExtendedChannelServer::validate_share`
(`channels/server/extended.rs`): same shape with the Extended share and
error types. -/
def Sv2ExtendedChannelServer.validate_share (env : ChannelEnv)
    (share : SubmitSharesExtended) (ch : InnerChannel) :
    Except Sv2ServerExtendedChannelError (ShareValidationResult × InnerChannel) :=
  match sv2_message_to_inner (.submitSharesExtended share) with
  | .error e => .error (.failedToConvertMessage e)
  | .ok anyMessage =>
    match anyMessage with
    | .mining (.submitSharesExtended s) =>
        match validateShareInner env (shareOfExtended s) ch with
        | .ok r => .ok r
        | .error e => .error (.shareValidationError e)
    | _ => .error .messageIsNotSubmitSharesExtended

/-! ## Extranonce-prefix factory -/

/-- `ExtranoncePrefixFactoryError` (`channels/server/extranonce_prefix.rs`). -/
inductive ExtranoncePrefixFactoryError
  | lockError
  | prefixTooLong
  | failedToCreateExtendedExtranonce
  | failedToCreateExtranoncePrefix
deriving DecidableEq

/-- `FULL_EXTRANONCE_LEN` (`mining_sv2`): the fixed full-extranonce
space, 32 bytes. -/
def fullExtranonceLen : Nat := 32

/-- Modelled from the spec: `mining_sv2::ExtendedExtranonce` (§4.1): an
optional static prefix, an allocation range of `allocationSize` bytes
out of the fixed 32-byte space, and a monotonically advancing, never
reused allocation cursor. -/
structure ExtendedExtranonce where
  staticPrefixBytes : List Nat
  allocationSize : Nat
  counter : Nat
deriving DecidableEq

/-- Big-endian encoding of the allocation cursor on exactly `n` bytes. -/
def natToBytesBE : Nat → Nat → List Nat
  | 0, _ => []
  | n + 1, c => natToBytesBE n (c / 256) ++ [c % 256]

/-- Modelled from the spec: `ExtendedExtranonce::new` (§4.1 `create`):
fails when the static prefix plus the allocation size would exceed the
32-byte space. -/
def ExtendedExtranonce.new (allocationSize : Nat) (staticPrefixBytes : Option (List Nat)) :
    Except ExtranoncePrefixFactoryError ExtendedExtranonce :=
  let sp := staticPrefixBytes.getD []
  if sp.length + allocationSize > fullExtranonceLen then .error .prefixTooLong
  else .ok ⟨sp, allocationSize, 0⟩

/-- Modelled from the spec: `next_prefix_extended` (§4.1 `next_prefix`):
returns the next unused prefix when at least `minRequiredLen` rollable
bytes remain after the static prefix and the allocation range, failing
otherwise or when the finite allocation space is exhausted; the cursor
advances monotonically. -/
def nextPrefixExtended (e : ExtendedExtranonce) (minRequiredLen : Nat) :
    Except ExtranoncePrefixFactoryError (List Nat × ExtendedExtranonce) :=
  if e.staticPrefixBytes.length + e.allocationSize + minRequiredLen > fullExtranonceLen then
    .error .failedToCreateExtranoncePrefix
  else if e.counter ≥ 256 ^ e.allocationSize then .error .failedToCreateExtranoncePrefix
  else .ok (e.staticPrefixBytes ++ natToBytesBE e.allocationSize e.counter,
    { e with counter := e.counter + 1 })

/-- `Sv2ExtranoncePrefixFactoryExtended::new`
(`channels/server/extranonce_prefix.rs`): partitions the 32-byte space
into a zero-length reserved range, an `allocation_size`-byte allocation
range and the remaining rollable range, delegating to the inner
constructor (failures collapse to `FailedToCreateExtendedExtranonce`). -/
def Sv2ExtranoncePrefixFactoryExtended.new (allocationSize : Nat)
    (staticPrefixBytes : Option (List Nat)) :
    Except ExtranoncePrefixFactoryError ExtendedExtranonce :=
  match ExtendedExtranonce.new allocationSize staticPrefixBytes with
  | .ok e => .ok e
  | .error _ => .error .failedToCreateExtendedExtranonce

/-- `Sv2ExtranoncePrefixFactoryExtended::next_extranonce_prefix`
(`channels/server/extranonce_prefix.rs`): delegates to
`next_prefix_extended`, collapsing inner failures to
`FailedToCreateExtranoncePrefix`. -/
def nextExtranoncePrefix (e : ExtendedExtranonce) (minRequiredLen : Nat) :
    Except ExtranoncePrefixFactoryError (List Nat × ExtendedExtranonce) :=
  match nextPrefixExtended e minRequiredLen with
  | .ok r => .ok r
  | .error _ => .error .failedToCreateExtranoncePrefix

deriving instance DecidableEq for Except

/-! ## Auxiliary observers and sample values -/

/-- Whether an `Except` result is a success. -/
def isOkE {ε α : Type} : Except ε α → Bool
  | .ok _ => true
  | .error _ => false

/-- Observer for the defensive `MessageIsNotNewTemplate` branch of the
Standard channel server. -/
def isMessageIsNotNewTemplateStd {α : Type} :
    Except Sv2ServerStandardChannelError α → Bool
  | .error .messageIsNotNewTemplate => true
  | _ => false

/-- Observer for the defensive `MessageIsNotNewTemplate` branch of the
Extended channel server. -/
def isMessageIsNotNewTemplateExt {α : Type} :
    Except Sv2ServerExtendedChannelError α → Bool
  | .error .messageIsNotNewTemplate => true
  | _ => false

/-- Observer for the defensive `MessageIsNotNewTemplate` branch of the
Group channel server. -/
def isMessageIsNotNewTemplateGrp {α : Type} :
    Except Sv2ServerGroupChannelError α → Bool
  | .error .messageIsNotNewTemplate => true
  | _ => false

/-- A concrete oracle environment used by the witnesses: the
proof-of-work hash is the constant 3 and each share contributes
difficulty 1. -/
def sampleEnv : ChannelEnv :=
  { powHash := fun _ _ _ => 3
    shareDiff := fun _ => 1
    hashrateOk := fun _ => true
    computeTarget := fun _ _ => 0 }

/-- A concrete channel with one active job, an established chain tip,
channel target 5 and network target 1, used by the witnesses. -/
def sampleChannel : InnerChannel :=
  { channelId := 1
    userIdentity := ""
    extranoncePrefix := [0]
    maxTarget := 100
    target := 5
    nominalHashrate := 0
    shareBatchSize := 10
    expectedSharePerMinute := 0
    versionRollingAllowed := true
    futureJobs := []
    activeJob := some ⟨1, some 7, 2, true, []⟩
    pastJobs := []
    futureTemplateToJobId := []
    chainTip := some ⟨List.replicate 32 0, 1⟩
    nextJobId := 2
    seenSequenceNumbers := []
    lastSequenceNumber := 0
    acceptedCount := 0
    sharesSum := 0
    sharesSinceLastAck := 0 }

/-- A concrete standard share against `sampleChannel`'s active job. -/
def sampleShareStd : SubmitSharesStandard := ⟨1, 4, 1, 0, 0, 2⟩

/-- A concrete extended share against `sampleChannel`'s active job. -/
def sampleShareExt : SubmitSharesExtended := ⟨1, 4, 1, 0, 0, 2, [9]⟩

/-! ## Helper lemmas -/

theorem except_bind_ok {ε α β : Type} {x : Except ε α} {f : α → Except ε β} {b : β}
    (h : x >>= f = .ok b) : ∃ a, x = .ok a ∧ f a = .ok b := by
  cases x with
  | error e => exact absurd h (by simp [Bind.bind, Except.bind])
  | ok a => exact ⟨a, rfl, h⟩

theorem checkStr_ok {s t : String} (h : checkStr s = .ok t) : t = s := by
  unfold checkStr at h
  split at h
  · injection h with h; exact h.symm
  · exact Except.noConfusion h

theorem checkBytes_ok {n : Nat} {b b' : List Nat} (h : checkBytes n b = .ok b') : b' = b := by
  unfold checkBytes at h
  split at h
  · injection h with h; exact h.symm
  · exact Except.noConfusion h

theorem checkExact_ok {n : Nat} {b b' : List Nat} (h : checkExact n b = .ok b') : b' = b := by
  unfold checkExact at h
  split at h
  · injection h with h; exact h.symm
  · exact Except.noConfusion h

theorem checkEach_ok {α : Type} {f : α → Except Sv2MessageError α}
    (hf : ∀ a b, f a = .ok b → b = a) :
    ∀ {l l' : List α}, checkEach f l = .ok l' → l' = l := by
  intro l
  induction l with
  | nil =>
    intro l' h
    unfold checkEach at h
    injection h with h
    exact h.symm
  | cons a as ih =>
    intro l' h
    unfold checkEach at h
    obtain ⟨b, hb, h⟩ := except_bind_ok h
    obtain ⟨bs, hbs, h⟩ := except_bind_ok h
    injection h with h
    rw [← h, hf _ _ hb, ih hbs]

theorem protocolFromU8_toU8 {n : Nat} {p : InnerProtocol}
    (h : protocolFromU8 n = .ok p) : protocolToU8 p = n := by
  unfold protocolFromU8 at h
  split_ifs at h with h0 h1 h2 h3 <;>
    first
      | exact Except.noConfusion h
      | (injection h with h; subst h; simp [protocolToU8, *])

theorem nextFrame_complete {d : InnerNoiseDecoder} {st : InnerCodecState}
    (h : neededTotal d.buffered ≤ d.buffered.length) :
    nextFrame d st = (.frame (d.buffered.getD 0 0) (d.buffered.drop headerSize),
      ⟨[]⟩, advanceOnCrypt st) := by
  unfold nextFrame
  rw [if_pos h]

theorem nextFrame_incomplete {d : InnerNoiseDecoder} {st : InnerCodecState}
    (h : d.buffered.length < neededTotal d.buffered) :
    nextFrame d st = (.missingBytes (neededTotal d.buffered - d.buffered.length), d, st) := by
  unfold nextFrame
  rw [if_neg (Nat.not_le.mpr h)]

theorem natToBytesBE_length (n c : Nat) : (natToBytesBE n c).length = n := by
  induction n generalizing c with
  | zero => rfl
  | succ k ih => simp [natToBytesBE, ih]

/-- On an empty input vector `try_decode` skips the size check entirely:
the outcome is a missing-bytes report, a decoded message or a frame
decoding failure, never `InvalidDataSize`. -/
theorem try_decode_empty (parse : Nat → List Nat → Option InnerAnyMessage)
    (dec : Sv2Decoder) (st : InnerCodecState) :
    (try_decode parse dec [] st).1 = .error .missingBytes ∨
    (∃ msg, (try_decode parse dec [] st).1 = .ok msg) ∨
    (try_decode parse dec [] st).1 = .error .failedToDecodeFrame := by
  unfold try_decode
  rw [if_neg (by simp)]
  by_cases hcomp : neededTotal (dec.inner.buffered ++ []) ≤ (dec.inner.buffered ++ []).length
  · rw [nextFrame_complete (d := ⟨dec.inner.buffered ++ []⟩) hcomp]
    simp only [List.append_nil, List.getD]
    cases hp : parse ((dec.inner.buffered.get? 0).getD 0)
        (List.drop headerSize dec.inner.buffered) with
    | some im => right; left; exact ⟨inner_to_sv2_message im, rfl⟩
    | none => right; right; rfl
  · rw [nextFrame_incomplete (d := ⟨dec.inner.buffered ++ []⟩) (Nat.lt_of_not_le hcomp)]
    left
    rfl

/-- Inversion: a frame result of `nextFrame` implies the buffered bytes
were complete, the inner buffer was reset and the state advanced. -/
theorem nextFrame_frame_inv {d : InnerNoiseDecoder} {st : InnerCodecState}
    {t : Nat} {p : List Nat} {i2 : InnerNoiseDecoder} {st2 : InnerCodecState}
    (h : nextFrame d st = (.frame t p, i2, st2)) :
    i2 = ⟨[]⟩ ∧ st2 = advanceOnCrypt st ∧ neededTotal d.buffered ≤ d.buffered.length := by
  unfold nextFrame at h
  split at h
  · simp only [Prod.mk.injEq] at h
    exact ⟨h.2.1.symm, h.2.2.symm, by assumption⟩
  · simp only [Prod.mk.injEq] at h
    exact absurd h.1 (by simp)

/-- Inversion: a missing-bytes result of `nextFrame` implies the buffer
was incomplete, nothing was consumed and the state is untouched; the
reported count is exactly the outstanding byte count. -/
theorem nextFrame_missing_inv {d : InnerNoiseDecoder} {st : InnerCodecState}
    {n : Nat} {i2 : InnerNoiseDecoder} {st2 : InnerCodecState}
    (h : nextFrame d st = (.missingBytes n, i2, st2)) :
    n = neededTotal d.buffered - d.buffered.length ∧ i2 = d ∧ st2 = st ∧
      d.buffered.length < neededTotal d.buffered := by
  unfold nextFrame at h
  split at h
  · simp only [Prod.mk.injEq] at h
    exact absurd h.1 (by simp)
  · simp only [Prod.mk.injEq] at h
    exact ⟨(NextFrameRes.missingBytes.injEq _ _ ▸ h.1).symm, h.2.1.symm, h.2.2.symm,
      Nat.lt_of_not_le (by assumption)⟩

/-- C1 as the specification states it is violated in the state reached
immediately after a successful decode: there `buffer_size()` returns 0,
yet a non-empty 2-byte input (which cannot equal 0) passes the size
check — the code compares against the inner decoder's requested write
size, not against the stored `buffer_size()`.  The first conjunct shows
the offending decoder state is reached from a fresh decoder by one
successful decode; the remaining conjuncts exhibit a call satisfying the
claim's premises that decodes successfully instead of failing with
`InvalidDataSize`. -/
theorem c1_counterexample_post_success_call :
    (try_decode (fun _ _ => some (.common (.setupConnectionSuccess ⟨0, 0⟩)))
        Sv2Decoder.new [0, 0] (.transport 0)).2.1 = Sv2Decoder.mk ⟨[]⟩ 0 ∧
    (([7, 0] : List Nat) ≠ []) ∧
    (([7, 0] : List Nat).length ≠ (Sv2Decoder.mk ⟨[]⟩ 0).bufferSize) ∧
    (try_decode (fun _ _ => some (.common (.setupConnectionSuccess ⟨0, 0⟩)))
        (Sv2Decoder.mk ⟨[]⟩ 0) [7, 0] (.transport 1)).1 =
      .ok (.setupConnectionSuccess ⟨0, 0⟩) := by
  refine ⟨by decide, by decide, by decide, by decide⟩

/-- C1 (amended): in every decoder state, calling `try_decode` with a
non-empty byte vector whose length differs from the inner decoder's
currently requested write size fails with `InvalidDataSize{expected :=
that requested size, actual := length}` and leaves the decoder and the
codec state untouched.  The stored `buffer_size()` can lag behind the
requested write size (it is set to 0 after a successful decode and left
stale after a frame-decoding failure), so the `expected` value is the
inner requirement, not `buffer_size()`; and with an empty vector the
size check is skipped entirely and `InvalidDataSize` is never
produced. -/
theorem c1_try_decode_invalid_data_size
    (parse : Nat → List Nat → Option InnerAnyMessage) (dec : Sv2Decoder)
    (data : List Nat) (st : InnerCodecState)
    (hne : data ≠ []) (hlen : data.length ≠ InnerNoiseDecoder.writable dec.inner) :
    try_decode parse dec data st =
      (.error (.invalidDataSize (InnerNoiseDecoder.writable dec.inner) data.length),
       dec, st) ∧
    ∀ e a, (try_decode parse dec [] st).1 ≠ .error (.invalidDataSize e a) := by
  constructor
  · unfold try_decode
    rw [if_pos ⟨hne, fun hh => hlen hh.symm⟩]
  · intro e a h
    rcases try_decode_empty parse dec st with h1 | ⟨msg, h1⟩ | h1 <;>
      exact absurd (h1.symm.trans h) (by simp)

/-- C1 witness: a fresh decoder requests 2 bytes; supplying 3 bytes
fails with `InvalidDataSize{expected := 2, actual := 3}`. -/
theorem c1_witness :
    try_decode (fun _ _ => none) Sv2Decoder.new [1, 2, 3] (.handShake .initiator) =
      (.error (.invalidDataSize 2 3), Sv2Decoder.new, .handShake .initiator) :=
  (c1_try_decode_invalid_data_size (fun _ _ => none) Sv2Decoder.new [1, 2, 3]
    (.handShake .initiator) (by decide) (by decide)).1

/-- C3 fails as stated: decoding a complete 2-byte frame (type 0, empty
payload) from a fresh decoder succeeds, and afterwards the stored
required buffer size is 0 — not the header size (2) the specification
promises. -/
theorem c3_counterexample_buffer_size_zero :
    (try_decode (fun _ _ => some (.common (.setupConnectionSuccess ⟨0, 0⟩)))
        Sv2Decoder.new [0, 0] (.transport 0)).1 =
      .ok (.setupConnectionSuccess ⟨0, 0⟩) ∧
    (try_decode (fun _ _ => some (.common (.setupConnectionSuccess ⟨0, 0⟩)))
        Sv2Decoder.new [0, 0] (.transport 0)).2.1.bufferSize = 0 ∧
    headerSize = 2 ∧ (0 : Nat) ≠ 2 := by
  refine ⟨by decide, by decide, rfl, by decide⟩

/-- C3 (amended): after every successful decode the stored required
buffer size is reset to 0 (not to the header size) and the inner buffer
is empty; the header-size requirement reappears one call later — a
subsequent call with an empty byte vector reports `MissingBytes` and
sets the required buffer size to the header size for the next frame. -/
theorem c3_amended_buffer_size_reset (parse : Nat → List Nat → Option InnerAnyMessage)
    (dec : Sv2Decoder) (data : List Nat) (st : InnerCodecState)
    (msg : Sv2Message) (dec' : Sv2Decoder) (st' : InnerCodecState)
    (h : try_decode parse dec data st = (.ok msg, dec', st')) :
    dec'.bufferSize = 0 ∧ dec'.inner.buffered = [] ∧
    (try_decode parse dec' [] st').1 = .error .missingBytes ∧
    (try_decode parse dec' [] st').2.1.bufferSize = headerSize := by
  have hdec : dec' = ⟨⟨[]⟩, 0⟩ := by
    unfold try_decode at h
    split at h
    · simp only [Prod.mk.injEq] at h
      exact absurd h.1 (by simp)
    · split at h
      · next t payload i2 st2 heq =>
        obtain ⟨hi2, hst2, hcomp⟩ := nextFrame_frame_inv heq
        split at h
        · simp only [Prod.mk.injEq] at h
          rw [← h.2.1, hi2]
        · simp only [Prod.mk.injEq] at h
          exact absurd h.1 (by simp)
      · next n i2 st2 heq =>
        simp only [Prod.mk.injEq] at h
        exact absurd h.1 (by simp)
  subst hdec
  refine ⟨rfl, rfl, rfl, rfl⟩

/-- C3 witness for the amended statement: a concrete successful decode
resets the stored size to 0 and the following empty-vector call restores
the header-size requirement. -/
theorem c3_amended_witness :
    (Sv2Decoder.mk ⟨[]⟩ 0).bufferSize = 0 ∧
    (Sv2Decoder.mk ⟨[]⟩ 0).inner.buffered = [] ∧
    (try_decode (fun _ _ => some (.common (.setupConnectionSuccess ⟨0, 0⟩)))
        (Sv2Decoder.mk ⟨[]⟩ 0) [] (.transport 1)).1 = .error .missingBytes ∧
    (try_decode (fun _ _ => some (.common (.setupConnectionSuccess ⟨0, 0⟩)))
        (Sv2Decoder.mk ⟨[]⟩ 0) [] (.transport 1)).2.1.bufferSize = headerSize :=
  c3_amended_buffer_size_reset
    (fun _ _ => some (.common (.setupConnectionSuccess ⟨0, 0⟩)))
    Sv2Decoder.new [0, 0] (.transport 0) (.setupConnectionSuccess ⟨0, 0⟩)
    (Sv2Decoder.mk ⟨[]⟩ 0) (.transport 1) (by decide)

/-- When the current read is completed (`data` has exactly the requested
length) but the frame is still incomplete, the total requirement of the
grown buffer is unchanged and the grown buffer reaches it exactly once
the reported missing bytes arrive. -/
theorem neededTotal_append_of_header {buf data2 : List Nat}
    (hhd : headerSize ≤ buf.length)
    (hlen2 : data2.length = neededTotal buf - buf.length)
    (hle : buf.length ≤ neededTotal buf) :
    neededTotal (buf ++ data2) ≤ (buf ++ data2).length := by
  have h2 : ¬ buf.length < headerSize := Nat.not_lt.mpr hhd
  have hlen : (buf ++ data2).length = neededTotal buf := by
    simp only [List.length_append, hlen2]
    omega
  have h2' : ¬ (buf ++ data2).length < headerSize := by
    simp only [List.length_append]
    unfold headerSize at hhd ⊢
    omega
  have hg : (buf ++ data2).getD 1 0 = buf.getD 1 0 := by
    apply List.getD_append
    unfold headerSize at hhd
    omega
  unfold neededTotal at hlen ⊢
  rw [if_neg h2']
  rw [if_neg h2] at hlen
  rw [hg, hlen]

/-- C2: when the supplied bytes complete the current read without
completing the frame, `try_decode` fails with `MissingBytes`, stores the
inner decoder's reported outstanding byte count as the new required
buffer size, keeps every previously buffered byte together with the new
data, and does not advance the shared codec state; moreover, once the
header is buffered, a follow-up call supplying exactly the requested
bytes decodes the frame assembled from the preserved bytes. -/
theorem c2_try_decode_missing_bytes_resumable
    (parse : Nat → List Nat → Option InnerAnyMessage) (dec : Sv2Decoder)
    (data : List Nat) (st : InnerCodecState)
    (hsz : data.length = InnerNoiseDecoder.writable dec.inner)
    (hinc : (dec.inner.buffered ++ data).length < neededTotal (dec.inner.buffered ++ data)) :
    try_decode parse dec data st =
      (.error .missingBytes,
       ⟨⟨dec.inner.buffered ++ data⟩,
        neededTotal (dec.inner.buffered ++ data) - (dec.inner.buffered ++ data).length⟩,
       st) ∧
    (headerSize ≤ (dec.inner.buffered ++ data).length →
      ∀ data2 : List Nat,
        data2.length =
          neededTotal (dec.inner.buffered ++ data) - (dec.inner.buffered ++ data).length →
        ∀ im, parse (((dec.inner.buffered ++ data ++ data2).get? 0).getD 0)
            (List.drop headerSize (dec.inner.buffered ++ data ++ data2)) = some im →
          (try_decode parse
            ⟨⟨dec.inner.buffered ++ data⟩,
             neededTotal (dec.inner.buffered ++ data) - (dec.inner.buffered ++ data).length⟩
            data2 st).1 = .ok (inner_to_sv2_message im)) := by
  constructor
  · unfold try_decode
    rw [if_neg ?hc]
    case hc => rintro ⟨hne, hwr⟩; exact hwr hsz.symm
    rw [nextFrame_incomplete (d := ⟨dec.inner.buffered ++ data⟩) hinc]
  · intro hhd data2 hlen2 im hp
    unfold try_decode
    rw [if_neg ?hc2]
    case hc2 => rintro ⟨hne2, hwr2⟩; exact hwr2 hlen2.symm
    have hcomp2 : neededTotal ((dec.inner.buffered ++ data) ++ data2) ≤
        ((dec.inner.buffered ++ data) ++ data2).length :=
      neededTotal_append_of_header hhd hlen2 (Nat.le_of_lt hinc)
    rw [nextFrame_complete (d := ⟨(dec.inner.buffered ++ data) ++ data2⟩) hcomp2]
    simp only [List.getD]
    rw [hp]

/-- C2 witness: a fresh decoder (requesting the 2-byte header) receives
the header `[5, 3]` announcing a 3-byte payload: the call reports
`MissingBytes`, keeps the header buffered and stores 3 as the next
required buffer size. -/
theorem c2_witness :
    try_decode (fun _ _ => none) Sv2Decoder.new [5, 3] (.transport 0) =
      (.error .missingBytes, ⟨⟨[5, 3]⟩, 3⟩, .transport 0) :=
  (c2_try_decode_missing_bytes_resumable (fun _ _ => none) Sv2Decoder.new [5, 3]
    (.transport 0) (by decide) (by decide)).1

/-- C4: `handshake_complete` holds exactly on `Transport` states; fresh
initiator/responder states are not in `Transport`; a successful `step_1`
happens exactly on a responder-handshake state and lands in `Transport`;
a successful `step_2` happens exactly on an initiator-handshake state
and lands in `Transport`; and the transition is irreversible: `step_1`
and `step_2` always fail on a `Transport` state, and the only other
operation that writes the shared state, `try_decode`, keeps a
`Transport` state in `Transport` (and likewise never promotes a
handshake state). -/
theorem c4_handshake_transport_transitions :
    (∀ st : InnerCodecState, handshake_complete st = true ↔ ∃ n, st = .transport n) ∧
    (∀ k c st, new_initiator k c = .ok st → handshake_complete st = false) ∧
    (∀ pk sk cert c st, new_responder pk sk cert c = .ok st →
      handshake_complete st = false) ∧
    (∀ st frame c out p st', step_1 st frame c out = .ok (p, st') →
      st = .handShake .responder ∧ handshake_complete st' = true) ∧
    (∀ st frame c st', step_2 st frame c = .ok st' →
      st = .handShake .initiator ∧ handshake_complete st' = true) ∧
    (∀ n frame c out, isOkE (step_1 (.transport n) frame c out) = false) ∧
    (∀ n frame c, isOkE (step_2 (.transport n) frame c) = false) ∧
    (∀ parse dec data n,
      handshake_complete (try_decode parse dec data (.transport n)).2.2 = true) ∧
    (∀ parse dec data r,
      (try_decode parse dec data (.handShake r)).2.2 = .handShake r) := by
  refine ⟨?_, ?_, ?_, ?_, ?_, ?_, ?_, ?_, ?_⟩
  · intro st
    cases st <;> simp [handshake_complete]
  · intro k c st h
    unfold new_initiator at h
    split_ifs at h
    injection h with h
    rw [← h]
    rfl
  · intro pk sk cert c st h
    unfold new_responder at h
    split_ifs at h
    injection h with h
    rw [← h]
    rfl
  · intro st frame c out p st' h
    unfold step_1 at h
    split at h
    · exact Except.noConfusion h
    · split at h
      · split at h
        · injection h with h
          injection h with h1 h2
          exact ⟨rfl, by rw [← h2]; rfl⟩
        · exact Except.noConfusion h
      · exact Except.noConfusion h
  · intro st frame c st' h
    unfold step_2 at h
    split at h
    · exact Except.noConfusion h
    · split at h
      · split at h
        · injection h with h
          exact ⟨rfl, by rw [← h]; rfl⟩
        · exact Except.noConfusion h
      · exact Except.noConfusion h
  · intro n frame c out
    unfold step_1
    split <;> rfl
  · intro n frame c
    unfold step_2
    split <;> rfl
  · intro parse dec data n
    unfold try_decode
    split
    · rfl
    · split
      · next t payload i2 st2 heq =>
        obtain ⟨hi2, hst2, _⟩ := nextFrame_frame_inv heq
        cases parse t payload
        · rfl
        · rw [hst2]
          rfl
      · next m i2 st2 heq =>
        obtain ⟨_, _, hst2, _⟩ := nextFrame_missing_inv heq
        rw [hst2]
        rfl
  · intro parse dec data r
    unfold try_decode
    split
    · rfl
    · split
      · next t payload i2 st2 heq =>
        obtain ⟨hi2, hst2, _⟩ := nextFrame_frame_inv heq
        cases parse t payload
        · rfl
        · rw [hst2]
          rfl
      · next m i2 st2 heq =>
        obtain ⟨_, _, hst2, _⟩ := nextFrame_missing_inv heq
        rw [hst2]

set_option maxRecDepth 4000 in
/-- C4 witness: on an initiator-handshake state, `step_2` with a
well-sized responder frame succeeds, confirming the source state was the
initiator handshake and the new state is in transport. -/
theorem c4_witness :
    InnerCodecState.handShake .initiator = .handShake .initiator ∧
      handshake_complete (.transport 0) = true :=
  c4_handshake_transport_transitions.2.2.2.2.1 (.handShake .initiator)
    (List.replicate 234 0) true (.transport 0) (by decide)

/-- C9: `encode` never advances the shared codec state: the state
returned alongside the ciphertext is exactly the input state (the source
encrypts under a clone it never writes back), and a second `encode` with
the same message and the state left by the first call produces the
identical ciphertext. -/
theorem c9_encode_preserves_state (ser : InnerAnyMessage → Option (List Nat))
    (enc : Nat → List Nat → List Nat) (message : Sv2Message)
    (codecState : InnerCodecState) (bytes : List Nat) (stOut : InnerCodecState)
    (h : encode ser enc message codecState = .ok (bytes, stOut)) :
    stOut = codecState ∧ encode ser enc message stOut = .ok (bytes, codecState) := by
  have h0 := h
  unfold encode at h
  split at h
  · exact Except.noConfusion h
  · split at h
    · exact Except.noConfusion h
    · injection h with h
      injection h with hb hst
      subst hst
      exact ⟨rfl, h0⟩

/-- C9 witness: a concrete encode on a transport state returns the
ciphertext with the state unchanged, twice in a row. -/
theorem c9_witness :
    encode (fun _ => some [9]) (fun n p => n :: p) (.setupConnectionSuccess ⟨0, 0⟩)
        (.transport 5) = .ok ([5, 9], .transport 5) :=
  (c9_encode_preserves_state (fun _ => some [9]) (fun n p => n :: p)
    (.setupConnectionSuccess ⟨0, 0⟩) (.transport 5) [5, 9] (.transport 5) rfl).2

/-- Translating an external `NewTemplate` either fails or yields the
`TemplateDistribution::NewTemplate` internal variant — never any other
variant. -/
theorem newTemplateToInnerShape (t : NewTemplate) :
    (∃ e, sv2_message_to_inner (.newTemplate t) = .error e) ∨
    (∃ t', sv2_message_to_inner (.newTemplate t) =
      .ok (.templateDistribution (.newTemplate t'))) := by
  cases h1 : checkEach (checkExact 32) t.merklePath with
  | error e =>
    left
    refine ⟨e, ?_⟩
    simp only [sv2_message_to_inner]
    rw [h1]
    rfl
  | ok mp =>
    cases h2 : checkBytes 255 t.coinbasePrefix with
    | error e =>
      left
      refine ⟨e, ?_⟩
      simp only [sv2_message_to_inner]
      rw [h1, h2]
      rfl
    | ok cp =>
      cases h3 : checkBytes 65535 t.coinbaseTxOutputs with
      | error e =>
        left
        refine ⟨e, ?_⟩
        simp only [sv2_message_to_inner]
        rw [h1, h2, h3]
        rfl
      | ok co =>
        right
        refine ⟨⟨t.templateId, t.futureTemplate, t.version, t.coinbaseTxVersion, cp,
          t.coinbaseTxInputSequence, t.coinbaseTxValueRemaining, t.coinbaseTxOutputsCount,
          co, t.coinbaseTxLocktime, mp⟩, ?_⟩
        simp only [sv2_message_to_inner]
        rw [h1, h2, h3]
        rfl

/-- C10: the defensive `MessageIsNotNewTemplate` branch is unreachable:
whenever `sv2_message_to_inner` succeeds on a `NewTemplate` message the
result is always the `TemplateDistribution::NewTemplate` internal
variant, so `on_new_template` never returns `MessageIsNotNewTemplate` on
the Standard, Extended or Group channel servers. -/
theorem c10_new_template_branch_unreachable :
    (∀ t : NewTemplate,
      (∃ e, sv2_message_to_inner (.newTemplate t) = .error e) ∨
      (∃ t', sv2_message_to_inner (.newTemplate t) =
        .ok (.templateDistribution (.newTemplate t')))) ∧
    (∀ t outs ch, isMessageIsNotNewTemplateStd
      (Sv2StandardChannelServer.on_new_template t outs ch) = false) ∧
    (∀ t outs ch, isMessageIsNotNewTemplateExt
      (Sv2ExtendedChannelServer.on_new_template t outs ch) = false) ∧
    (∀ t outs ch, isMessageIsNotNewTemplateGrp
      (Sv2GroupChannelServer.on_new_template t outs ch) = false) := by
  refine ⟨newTemplateToInnerShape, ?_, ?_, ?_⟩
  · intro t outs ch
    unfold Sv2StandardChannelServer.on_new_template
    rcases newTemplateToInnerShape t with ⟨e, he⟩ | ⟨t', ht⟩
    · rw [he]
      rfl
    · rw [ht]
      dsimp only
      cases innerOnNewTemplate t' outs ch <;> rfl
  · intro t outs ch
    unfold Sv2ExtendedChannelServer.on_new_template
    rcases newTemplateToInnerShape t with ⟨e, he⟩ | ⟨t', ht⟩
    · rw [he]
      rfl
    · rw [ht]
      dsimp only
      cases innerOnNewTemplate t' outs ch <;> rfl
  · intro t outs ch
    unfold Sv2GroupChannelServer.on_new_template
    rcases newTemplateToInnerShape t with ⟨e, he⟩ | ⟨t', ht⟩
    · rw [he]
      rfl
    · rw [ht]
      dsimp only
      cases innerOnNewTemplate t' outs ch <;> rfl

/-- C7: a `max_target` byte vector whose length is not exactly 32 makes
channel construction and `update_channel` fail with `BadMaxTarget` on
both the Standard and the Extended server; the update checks the length
before touching the channel, so an error leaves the channel state
untouched (the wrappers return only the error, never a modified
channel). -/
theorem c7_bad_max_target_rejected (env : ChannelEnv) (channelId : Nat)
    (uid : String) (xp : List Nat) (nhr : Nat) (vra : Bool) (minxn : Nat)
    (sbs : Nat) (espm : Nat) (ch : InnerChannel) (hr : Nat)
    (mt : List Nat) (hlen : mt.length ≠ 32) :
    Sv2StandardChannelServer.new env channelId uid xp mt nhr sbs espm =
      .error .badMaxTarget ∧
    Sv2ExtendedChannelServer.new env channelId uid xp mt nhr vra minxn sbs espm =
      .error .badMaxTarget ∧
    Sv2StandardChannelServer.update_channel env ch hr (some mt) =
      .error .badMaxTarget ∧
    Sv2ExtendedChannelServer.update_channel env ch hr (some mt) =
      .error .badMaxTarget := by
  refine ⟨?_, ?_, ?_, ?_⟩
  · unfold Sv2StandardChannelServer.new
    rw [if_pos hlen]
  · unfold Sv2ExtendedChannelServer.new
    rw [if_pos hlen]
  · unfold Sv2StandardChannelServer.update_channel
    dsimp only
    rw [if_pos hlen]
  · unfold Sv2ExtendedChannelServer.update_channel
    dsimp only
    rw [if_pos hlen]

/-- C7 witness: an empty `max_target` vector is rejected with
`BadMaxTarget` by the Standard constructor. -/
theorem c7_witness :
    Sv2StandardChannelServer.new sampleEnv 1 ("") [0] [] 0 10 0 =
      .error .badMaxTarget :=
  (c7_bad_max_target_rejected sampleEnv 1 ("") [0] 0 true 0 10 0 sampleChannel 0 []
    (by decide)).1

/-- C8: a factory with `allocation_size = 4` and a 4-byte static prefix
fails every `next_extranonce_prefix(min_required_len = 30)` call (the
static prefix, the allocation range and 30 rollable bytes exceed the
32-byte space), and in general a successful `next_extranonce_prefix`
always leaves at least `min_required_len` rollable bytes in the 32-byte
space. -/
theorem c8_extranonce_prefix_bounds :
    (∀ (sp : List Nat) (f : ExtendedExtranonce), sp.length = 4 →
      Sv2ExtranoncePrefixFactoryExtended.new 4 (some sp) = .ok f →
      nextExtranoncePrefix f 30 = .error .failedToCreateExtranoncePrefix) ∧
    (∀ (e : ExtendedExtranonce) (minLen : Nat) (p : List Nat) (e' : ExtendedExtranonce),
      nextExtranoncePrefix e minLen = .ok (p, e') →
      p.length + minLen ≤ fullExtranonceLen) := by
  constructor
  · intro sp f hsp hnew
    unfold Sv2ExtranoncePrefixFactoryExtended.new ExtendedExtranonce.new at hnew
    rw [if_neg (by simp [hsp, fullExtranonceLen])] at hnew
    injection hnew with hf
    subst hf
    unfold nextExtranoncePrefix nextPrefixExtended
    rw [if_pos (by simp [hsp, fullExtranonceLen])]
  · intro e minLen p e' h
    unfold nextExtranoncePrefix nextPrefixExtended at h
    split_ifs at h with h1 h2
    injection h with h
    injection h with hp he'
    rw [← hp]
    simp only [List.length_append, natToBytesBE_length]
    unfold fullExtranonceLen at h1 ⊢
    omega

/-- C8 witness: with a 4-byte static prefix and allocation size 4,
requesting 30 rollable bytes fails. -/
theorem c8_witness :
    nextExtranoncePrefix ⟨[0, 0, 0, 0], 4, 0⟩ 30 =
      .error .failedToCreateExtranoncePrefix :=
  c8_extranonce_prefix_bounds.1 [0, 0, 0, 0] ⟨[0, 0, 0, 0], 4, 0⟩ (by decide) (by decide)

/-- Resubmitting a share the inner validator just accepted as `Valid`
hits the duplicate check: the job, target and chain tip are unchanged by
the accept, and the sequence number is now recorded, so the same share
passes the earlier checks again and fails as a duplicate, leaving the
accepted count at exactly one increment. -/
theorem validateShareInner_duplicate (env : ChannelEnv) (s : Share)
    (ch ch' : InnerChannel)
    (h : validateShareInner env s ch = .ok (.valid, ch')) :
    validateShareInner env s ch' = .error .duplicateShare ∧
    ch'.acceptedCount = ch.acceptedCount + 1 := by
  unfold validateShareInner at h
  cases hj : findJob ch s.jobId with
  | none =>
    rw [hj] at h
    exact Except.noConfusion h
  | some job =>
    rw [hj] at h
    dsimp only at h
    cases hct : ch.chainTip with
    | none =>
      rw [hct] at h
      dsimp only at h
      split_ifs at h
    | some tip =>
      rw [hct] at h
      dsimp only at h
      split_ifs at h with ht hdup hvr hbf hack
      · injection h with h
        injection h with h1 h2
        exact ShareValidationResult.noConfusion h1
      · injection h with h
        injection h with h1 h2
        exact ShareValidationResult.noConfusion h1
      · injection h with h
        injection h with h1 h2
        subst h2
        refine ⟨?_, rfl⟩
        unfold validateShareInner
        have hj2 : findJob (acceptShare env s ch) s.jobId = some job := hj
        rw [hj2]
        dsimp only [acceptShare]
        rw [hct]
        rw [if_neg ht]
        rw [if_pos (List.mem_cons_self _ _)]

/-- C6: on both the Standard and the Extended channel server, a share
accepted as `Valid` makes an identical second submission (same channel,
same sequence number) fail with `DuplicateShare`, and the accepted-share
count is incremented exactly once across the two calls — the duplicate
returns no updated channel, so the accounting is unchanged by the second
call. -/
theorem c6_duplicate_share_rejected :
    (∀ (env : ChannelEnv) (s : SubmitSharesStandard) (ch ch' : InnerChannel),
      Sv2StandardChannelServer.validate_share env s ch = .ok (.valid, ch') →
      Sv2StandardChannelServer.validate_share env s ch' =
        .error (.shareValidationError .duplicateShare) ∧
      ch'.acceptedCount = ch.acceptedCount + 1) ∧
    (∀ (env : ChannelEnv) (s : SubmitSharesExtended) (ch ch' : InnerChannel),
      Sv2ExtendedChannelServer.validate_share env s ch = .ok (.valid, ch') →
      Sv2ExtendedChannelServer.validate_share env s ch' =
        .error (.shareValidationError .duplicateShare) ∧
      ch'.acceptedCount = ch.acceptedCount + 1) := by
  constructor
  · intro env s ch ch' h
    unfold Sv2StandardChannelServer.validate_share at h ⊢
    dsimp only [sv2_message_to_inner] at h ⊢
    cases hv : validateShareInner env (shareOfStandard s) ch with
    | error e =>
      rw [hv] at h
      exact Except.noConfusion h
    | ok r =>
      rw [hv] at h
      injection h with h
      subst h
      obtain ⟨hd, hc⟩ := validateShareInner_duplicate env (shareOfStandard s) ch ch' hv
      refine ⟨?_, hc⟩
      rw [hd]
  · intro env s ch ch' h
    unfold Sv2ExtendedChannelServer.validate_share at h ⊢
    cases hx : checkBytes 32 s.extranonce with
    | error e =>
      have hti : sv2_message_to_inner (.submitSharesExtended s) = .error e := by
        simp only [sv2_message_to_inner]
        rw [hx]
        rfl
      rw [hti] at h
      exact Except.noConfusion h
    | ok x =>
      obtain rfl := checkBytes_ok hx
      have hti : sv2_message_to_inner (.submitSharesExtended s) =
          .ok (.mining (.submitSharesExtended s)) := by
        simp only [sv2_message_to_inner]
        rw [hx]
        rfl
      rw [hti] at h ⊢
      dsimp only at h ⊢
      cases hv : validateShareInner env (shareOfExtended s) ch with
      | error e =>
        rw [hv] at h
        exact Except.noConfusion h
      | ok r =>
        rw [hv] at h
        injection h with h
        subst h
        obtain ⟨hd, hc⟩ := validateShareInner_duplicate env (shareOfExtended s) ch ch' hv
        refine ⟨?_, hc⟩
        rw [hd]

/-- C6 witness: on a concrete channel, a share accepted as `Valid` is
rejected as `DuplicateShare` when resubmitted. -/
theorem c6_witness :
    Sv2StandardChannelServer.validate_share sampleEnv sampleShareStd
        (acceptShare sampleEnv (shareOfStandard sampleShareStd) sampleChannel) =
      .error (.shareValidationError .duplicateShare) :=
  (c6_duplicate_share_rejected.1 sampleEnv sampleShareStd sampleChannel
    (acceptShare sampleEnv (shareOfStandard sampleShareStd) sampleChannel)
    (by decide)).1

/-- C5: the message translation round-trips — for every external message
on which `sv2_message_to_inner` succeeds, mapping the result back with
`inner_to_sv2_message` restores the original message exactly (the only
well-formedness needed is that the `request_id` fields packed into a
4-byte representation are in `u32` range, which the Rust `u32` type
guarantees); and `inner_to_sv2_message` is total on the internal
representation — every variant is mapped, no `UnsupportedMessageType`
failure exists in its type. -/
theorem c5_message_translation_roundtrip :
    (∀ i : InnerAnyMessage, ∃ m : Sv2Message, inner_to_sv2_message i = m) ∧
    (∀ (m : Sv2Message) (i : InnerAnyMessage), Sv2Message.wf m →
      sv2_message_to_inner m = .ok i → inner_to_sv2_message i = m) := by
  constructor
  · intro i
    exact ⟨inner_to_sv2_message i, rfl⟩
  · intro m i hw h
    cases m with
    | setupConnection m =>
      obtain ⟨p, hp, h⟩ := except_bind_ok h
      obtain ⟨a1, h1, h⟩ := except_bind_ok h
      obtain ⟨a2, h2, h⟩ := except_bind_ok h
      obtain ⟨a3, h3, h⟩ := except_bind_ok h
      obtain ⟨a4, h4, h⟩ := except_bind_ok h
      obtain ⟨a5, h5, h⟩ := except_bind_ok h
      obtain rfl := checkStr_ok h1
      obtain rfl := checkStr_ok h2
      obtain rfl := checkStr_ok h3
      obtain rfl := checkStr_ok h4
      obtain rfl := checkStr_ok h5
      injection h with h
      subst h
      simp only [inner_to_sv2_message]
      rw [protocolFromU8_toU8 hp]
    | setupConnectionSuccess m =>
      injection h with h
      subst h
      rfl
    | setupConnectionError m =>
      obtain ⟨a1, h1, h⟩ := except_bind_ok h
      obtain rfl := checkStr_ok h1
      injection h with h
      subst h
      rfl
    | channelEndpointChanged m =>
      injection h with h
      subst h
      rfl
    | reconnect m =>
      obtain ⟨a1, h1, h⟩ := except_bind_ok h
      obtain rfl := checkStr_ok h1
      injection h with h
      subst h
      rfl
    | openStandardMiningChannel m =>
      obtain ⟨a1, h1, h⟩ := except_bind_ok h
      obtain ⟨a2, h2, h⟩ := except_bind_ok h
      obtain rfl := checkExact_ok h1
      obtain rfl := checkStr_ok h2
      injection h with h
      subst h
      simp only [inner_to_sv2_message]
      rw [fromLe4_toLe4 m.requestId hw]
    | openStandardMiningChannelSuccess m =>
      obtain ⟨a1, h1, h⟩ := except_bind_ok h
      obtain ⟨a2, h2, h⟩ := except_bind_ok h
      obtain rfl := checkExact_ok h1
      obtain rfl := checkBytes_ok h2
      injection h with h
      subst h
      simp only [inner_to_sv2_message]
      rw [fromLe4_toLe4 m.requestId hw]
    | openExtendedMiningChannel m =>
      obtain ⟨a1, h1, h⟩ := except_bind_ok h
      obtain ⟨a2, h2, h⟩ := except_bind_ok h
      obtain rfl := checkExact_ok h1
      obtain rfl := checkStr_ok h2
      injection h with h
      subst h
      rfl
    | openExtendedMiningChannelSuccess m =>
      obtain ⟨a1, h1, h⟩ := except_bind_ok h
      obtain ⟨a2, h2, h⟩ := except_bind_ok h
      obtain rfl := checkExact_ok h1
      obtain rfl := checkBytes_ok h2
      injection h with h
      subst h
      rfl
    | openMiningChannelError m =>
      obtain ⟨a1, h1, h⟩ := except_bind_ok h
      obtain rfl := checkStr_ok h1
      injection h with h
      subst h
      rfl
    | updateChannel m =>
      obtain ⟨a1, h1, h⟩ := except_bind_ok h
      obtain rfl := checkExact_ok h1
      injection h with h
      subst h
      rfl
    | updateChannelError m =>
      obtain ⟨a1, h1, h⟩ := except_bind_ok h
      obtain rfl := checkStr_ok h1
      injection h with h
      subst h
      rfl
    | closeChannel m =>
      obtain ⟨a1, h1, h⟩ := except_bind_ok h
      obtain rfl := checkStr_ok h1
      injection h with h
      subst h
      rfl
    | setExtranoncePrefix m =>
      obtain ⟨a1, h1, h⟩ := except_bind_ok h
      obtain rfl := checkBytes_ok h1
      injection h with h
      subst h
      rfl
    | submitSharesStandard m =>
      injection h with h
      subst h
      rfl
    | submitSharesExtended m =>
      obtain ⟨a1, h1, h⟩ := except_bind_ok h
      obtain rfl := checkBytes_ok h1
      injection h with h
      subst h
      rfl
    | submitSharesSuccess m =>
      injection h with h
      subst h
      rfl
    | submitSharesError m =>
      obtain ⟨a1, h1, h⟩ := except_bind_ok h
      obtain rfl := checkStr_ok h1
      injection h with h
      subst h
      rfl
    | newMiningJob m =>
      obtain ⟨a1, h1, h⟩ := except_bind_ok h
      obtain rfl := checkBytes_ok h1
      injection h with h
      subst h
      rfl
    | newExtendedMiningJob m =>
      obtain ⟨a1, h1, h⟩ := except_bind_ok h
      obtain ⟨a2, h2, h⟩ := except_bind_ok h
      obtain ⟨a3, h3, h⟩ := except_bind_ok h
      obtain rfl := checkEach_ok (fun a b hab => checkExact_ok hab) h1
      obtain rfl := checkBytes_ok h2
      obtain rfl := checkBytes_ok h3
      injection h with h
      subst h
      rfl
    | setNewPrevHashMining m =>
      obtain ⟨a1, h1, h⟩ := except_bind_ok h
      obtain rfl := checkExact_ok h1
      injection h with h
      subst h
      rfl
    | setCustomMiningJob m =>
      obtain ⟨a1, h1, h⟩ := except_bind_ok h
      obtain ⟨a2, h2, h⟩ := except_bind_ok h
      obtain ⟨a3, h3, h⟩ := except_bind_ok h
      obtain ⟨a4, h4, h⟩ := except_bind_ok h
      obtain ⟨a5, h5, h⟩ := except_bind_ok h
      obtain rfl := checkEach_ok (fun a b hab => checkExact_ok hab) h1
      obtain rfl := checkBytes_ok h2
      obtain rfl := checkExact_ok h3
      obtain rfl := checkBytes_ok h4
      obtain rfl := checkBytes_ok h5
      injection h with h
      subst h
      rfl
    | setCustomMiningJobSuccess m =>
      injection h with h
      subst h
      rfl
    | setCustomMiningJobError m =>
      obtain ⟨a1, h1, h⟩ := except_bind_ok h
      obtain rfl := checkStr_ok h1
      injection h with h
      subst h
      rfl
    | setTarget m =>
      obtain ⟨a1, h1, h⟩ := except_bind_ok h
      obtain rfl := checkExact_ok h1
      injection h with h
      subst h
      rfl
    | setGroupChannel m =>
      injection h with h
      subst h
      rfl
    | coinbaseOutputConstraints m =>
      injection h with h
      subst h
      rfl
    | newTemplate m =>
      obtain ⟨a1, h1, h⟩ := except_bind_ok h
      obtain ⟨a2, h2, h⟩ := except_bind_ok h
      obtain ⟨a3, h3, h⟩ := except_bind_ok h
      obtain rfl := checkEach_ok (fun a b hab => checkExact_ok hab) h1
      obtain rfl := checkBytes_ok h2
      obtain rfl := checkBytes_ok h3
      injection h with h
      subst h
      rfl
    | setNewPrevHashTemplateDistribution m =>
      obtain ⟨a1, h1, h⟩ := except_bind_ok h
      obtain ⟨a2, h2, h⟩ := except_bind_ok h
      obtain rfl := checkExact_ok h1
      obtain rfl := checkExact_ok h2
      injection h with h
      subst h
      rfl
    | requestTransactionData m =>
      injection h with h
      subst h
      rfl
    | requestTransactionDataSuccess m =>
      obtain ⟨a1, h1, h⟩ := except_bind_ok h
      obtain ⟨a2, h2, h⟩ := except_bind_ok h
      obtain rfl := checkEach_ok (fun a b hab => checkBytes_ok hab) h1
      obtain rfl := checkBytes_ok h2
      injection h with h
      subst h
      rfl
    | requestTransactionDataError m =>
      obtain ⟨a1, h1, h⟩ := except_bind_ok h
      obtain rfl := checkStr_ok h1
      injection h with h
      subst h
      rfl
    | submitSolution m =>
      obtain ⟨a1, h1, h⟩ := except_bind_ok h
      obtain rfl := checkBytes_ok h1
      injection h with h
      subst h
      rfl
    | allocateMiningJobToken m =>
      obtain ⟨a1, h1, h⟩ := except_bind_ok h
      obtain rfl := checkStr_ok h1
      injection h with h
      subst h
      rfl
    | allocateMiningJobTokenSuccess m =>
      obtain ⟨a1, h1, h⟩ := except_bind_ok h
      obtain ⟨a2, h2, h⟩ := except_bind_ok h
      obtain rfl := checkBytes_ok h1
      obtain rfl := checkBytes_ok h2
      injection h with h
      subst h
      rfl
    | declareMiningJob m =>
      obtain ⟨a1, h1, h⟩ := except_bind_ok h
      obtain ⟨a2, h2, h⟩ := except_bind_ok h
      obtain ⟨a3, h3, h⟩ := except_bind_ok h
      obtain ⟨a4, h4, h⟩ := except_bind_ok h
      obtain ⟨a5, h5, h⟩ := except_bind_ok h
      obtain rfl := checkEach_ok (fun a b hab => checkExact_ok hab) h1
      obtain rfl := checkBytes_ok h2
      obtain rfl := checkBytes_ok h3
      obtain rfl := checkBytes_ok h4
      obtain rfl := checkBytes_ok h5
      injection h with h
      subst h
      rfl
    | declareMiningJobSuccess m =>
      obtain ⟨a1, h1, h⟩ := except_bind_ok h
      obtain rfl := checkBytes_ok h1
      injection h with h
      subst h
      rfl
    | declareMiningJobError m =>
      obtain ⟨a1, h1, h⟩ := except_bind_ok h
      obtain ⟨a2, h2, h⟩ := except_bind_ok h
      obtain rfl := checkStr_ok h1
      obtain rfl := checkBytes_ok h2
      injection h with h
      subst h
      rfl
    | provideMissingTransactions m =>
      injection h with h
      subst h
      rfl
    | provideMissingTransactionsSuccess m =>
      obtain ⟨a1, h1, h⟩ := except_bind_ok h
      obtain rfl := checkEach_ok (fun a b hab => checkBytes_ok hab) h1
      injection h with h
      subst h
      rfl
    | pushSolution m =>
      obtain ⟨a1, h1, h⟩ := except_bind_ok h
      obtain ⟨a2, h2, h⟩ := except_bind_ok h
      obtain rfl := checkBytes_ok h1
      obtain rfl := checkExact_ok h2
      injection h with h
      subst h
      rfl

/-- C5 witness: a concrete message round-trips through the internal
representation unchanged. -/
theorem c5_witness :
    inner_to_sv2_message (.common (.setupConnectionSuccess ⟨2, 0⟩)) =
      .setupConnectionSuccess ⟨2, 0⟩ :=
  c5_message_translation_roundtrip.2 (.setupConnectionSuccess ⟨2, 0⟩)
    (.common (.setupConnectionSuccess ⟨2, 0⟩)) True.intro rfl

end Sv2
